import Mathlib

/-
Verification of the core simulation engine of a side-scrolling reflex game
(single source file: game.js, class GeometryDashGame).

The engine is shallowly embedded over ℚ: every JavaScript number that the
simulation manipulates is modelled as a rational, so all arithmetic in the
embedding is exact.  Calls to Math.random() are modelled by an explicit
stream of rationals carried in the state (field rng, consumed from the
front, defaulting to 1/2 when exhausted); calls to Date.now() are modelled
by an explicit time parameter.  DOM, canvas-rendering and audio effects of
the source are out of scope and are dropped; every state field and every
arithmetic step of the simulation itself is translated one-for-one.
-/

namespace GeometryDash

/-- A 2-d point, as used by the geometry helpers of the source. -/
structure Pt where
  x : ℚ
  y : ℚ
  deriving DecidableEq, Repr

/-- The player record of the constructor (color is a cosmetic tag). -/
structure Player where
  x : ℚ
  y : ℚ
  width : ℚ
  height : ℚ
  velocityY : ℚ
  isGrounded : Bool
  rotation : ℚ
  color : String
  deriving DecidableEq, Repr

/-- Obstacle kinds: the source tags obstacle records with type 'spike' or 'block'. -/
inductive ObstacleType where
  | spike
  | block
  deriving DecidableEq, Repr

/-- An obstacle record as pushed by generateObstacles. -/
structure Obstacle where
  x : ℚ
  y : ℚ
  width : ℚ
  height : ℚ
  type : ObstacleType
  color : String
  deriving DecidableEq, Repr

/-- A platform record as pushed by generateObstacles. -/
structure Platform where
  x : ℚ
  y : ℚ
  width : ℚ
  height : ℚ
  color : String
  deriving DecidableEq, Repr

/-- A particle record as pushed by addParticles. -/
structure Particle where
  x : ℚ
  y : ℚ
  vx : ℚ
  vy : ℚ
  life : ℚ
  decay : ℚ
  color : String
  size : ℚ
  deriving DecidableEq, Repr

/-- The gameState strings of the source: 'menu', 'playing', 'gameOver'. -/
inductive Phase where
  | menu
  | playing
  | gameOver
  deriving DecidableEq, Repr

/-- The full simulation state of a GeometryDashGame instance.  gameWidth and
gameHeight are the canvas dimensions fixed by setupResponsiveCanvas; rng is
the explicit model of the Math.random() stream. -/
structure Game where
  gameState : Phase
  score : ℚ
  distance : ℤ
  gameSpeed : ℚ
  gravity : ℚ
  jumpForce : ℚ
  player : Player
  obstacles : List Obstacle
  platforms : List Platform
  particles : List Particle
  cameraX : ℚ
  autoMode : Bool
  lastAutoJumpTime : ℚ
  autoJumpCooldown : ℚ
  gameWidth : ℚ
  gameHeight : ℚ
  rng : List ℚ
  deriving DecidableEq, Repr

/-! ### Geometry kernel: linesIntersect and pointInTriangle -/

/-- Denominator of linesIntersect (source line 551). -/
def intersectDenom (p1 p2 p3 p4 : Pt) : ℚ :=
  (p4.y - p3.y) * (p2.x - p1.x) - (p4.x - p3.x) * (p2.y - p1.y)

/-- Intersection parameter ua of linesIntersect (source line 554). -/
def intersectUA (p1 p2 p3 p4 : Pt) : ℚ :=
  ((p4.x - p3.x) * (p1.y - p3.y) - (p4.y - p3.y) * (p1.x - p3.x)) /
    intersectDenom p1 p2 p3 p4

/-- Intersection parameter ub of linesIntersect (source line 555). -/
def intersectUB (p1 p2 p3 p4 : Pt) : ℚ :=
  ((p2.x - p1.x) * (p1.y - p3.y) - (p2.y - p1.y) * (p1.x - p3.x)) /
    intersectDenom p1 p2 p3 p4

/-- linesIntersect (source lines 550-558): segment intersection test with an
explicit zero-denominator guard. -/
def linesIntersect (p1 p2 p3 p4 : Pt) : Bool :=
  if intersectDenom p1 p2 p3 p4 = 0 then false
  else
    decide (intersectUA p1 p2 p3 p4 ≥ 0 ∧ intersectUA p1 p2 p3 p4 ≤ 1 ∧
            intersectUB p1 p2 p3 p4 ≥ 0 ∧ intersectUB p1 p2 p3 p4 ≤ 1)

/-- Denominator of the barycentric computation in pointInTriangle
(source line 564). -/
def triDenominator (p1 p2 p3 : Pt) : ℚ :=
  (p2.y - p3.y) * (p1.x - p3.x) + (p3.x - p2.x) * (p1.y - p3.y)

/-- pointInTriangle (source lines 560-570): barycentric-coordinate test with
no zero guard on the denominator.  (In ℚ division by zero yields 0 where the
source would produce NaN/Infinity; the degenerate case is proved unreachable
for every triangle the game builds, see the C10 theorem.) -/
def pointInTriangle (point p1 p2 p3 : Pt) : Bool :=
  let d := triDenominator p1 p2 p3
  let a := ((p2.y - p3.y) * (point.x - p3.x) + (p3.x - p2.x) * (point.y - p3.y)) / d
  let b := ((p3.y - p1.y) * (point.x - p3.x) + (p1.x - p3.x) * (point.y - p3.y)) / d
  let c := 1 - a - b
  decide (a ≥ 0 ∧ b ≥ 0 ∧ c ≥ 0)

/-! ### Randomness stream and particles -/

/-- The next Math.random() draw of a stream (front of the list; 1/2 when the
modelled stream is exhausted). -/
def randD (rs : List ℚ) : ℚ := rs.headD (1/2)

/-- One particle record as pushed by addParticles (source lines 225-234);
r1, r2, r3 are the three Math.random() draws, in evaluation order
(vx, vy, size). -/
def mkParticle (x y : ℚ) (c : String) (r1 r2 r3 : ℚ) : Particle :=
  { x := x, y := y, vx := (r1 - 1/2) * 10, vy := (r2 - 1/2) * 10,
    life := 1, decay := 1/50, color := c, size := r3 * 4 + 2 }

/-- The loop body of addParticles, iterated n times; each iteration consumes
three Math.random() draws. -/
def addParticlesAux (x y : ℚ) (c : String) : ℕ → Game → Game
  | 0, g => g
  | n + 1, g =>
    addParticlesAux x y c n
      { g with rng := g.rng.tail.tail.tail,
               particles := g.particles ++
                 [mkParticle x y c (randD g.rng) (randD g.rng.tail)
                   (randD g.rng.tail.tail)] }

/-- addParticles (source lines 223-236): pushes 8 particles. -/
def addParticles (g : Game) (x y : ℚ) (c : String) : Game :=
  addParticlesAux x y c 8 g

/-! ### Player control and physics -/

/-- jump (source lines 181-189). -/
def jump (g : Game) : Game :=
  if g.player.isGrounded then
    let g1 := { g with player :=
      { g.player with velocityY := g.jumpForce, isGrounded := false } }
    addParticles g1 (g1.player.x + g1.player.width / 2)
      (g1.player.y + g1.player.height) "#00ff88"
  else g

/-- checkIfGrounded (source lines 192-221). -/
def checkIfGrounded (g : Game) : Bool :=
  decide (g.player.y + g.player.height ≥ g.gameHeight - 50) ||
  g.obstacles.any (fun o => decide (o.type = ObstacleType.block ∧
    g.player.x < o.x - g.cameraX + o.width ∧
    g.player.x + g.player.width > o.x - g.cameraX ∧
    |g.player.y + g.player.height - o.y| < 5)) ||
  g.platforms.any (fun p => decide (
    g.player.x < p.x - g.cameraX + p.width ∧
    g.player.x + g.player.width > p.x - g.cameraX ∧
    |g.player.y + g.player.height - p.y| < 5))

/-- updatePlayer (source lines 238-254): gravity, integration, ground clamp,
grounded recomputation, cosmetic rotation. -/
def updatePlayer (g : Game) : Game :=
  let p := g.player
  let vy := p.velocityY + g.gravity
  let y1 := p.y + vy
  let g1 :=
    if y1 + p.height > g.gameHeight - 50 then
      { g with player :=
        { p with y := g.gameHeight - 50 - p.height, velocityY := 0 } }
    else
      { g with player := { p with y := y1, velocityY := vy } }
  let g2 := { g1 with player := { g1.player with isGrounded := checkIfGrounded g1 } }
  { g2 with player := { g2.player with rotation := g2.player.rotation + 1/5 } }

/-! ### Spawn planner -/

/-- getSpikePositions (source lines 351-391): candidate y positions for a new
spike (ground level, plus tops of platforms/blocks ahead of the player).  The
final empty-list fallback of the source is dead code (the ground position is
always present) but is kept. -/
def getSpikePositions (g : Game) : List ℚ :=
  let positions :=
    [g.gameHeight - 80] ++
    (g.platforms.filter (fun p =>
      decide (p.x - g.cameraX > g.player.x + 100))).map (fun p => p.y - 40) ++
    (g.obstacles.filter (fun o =>
      decide (o.type = ObstacleType.block ∧
        o.x - g.cameraX > g.player.x + 100))).map (fun o => o.y - 40)
  if positions = [] then [g.gameHeight - 80] else positions

/-- A spike record as pushed by generateObstacles. -/
def mkSpike (x y : ℚ) : Obstacle :=
  { x := x, y := y, width := 40, height := 40,
    type := ObstacleType.spike, color := "#ff4444" }

/-- generateObstacles (source lines 256-349).  Math.random() draws are
consumed in source evaluation order: spawn roll, type index, then per-type
rolls.  Array indexing out of [0,1) draws defaults like List.getD; for draws
in [0,1) (the range of Math.random()) the defaults are never used. -/
def generateObstacles (g : Game) : Game :=
  if randD g.rng < 3/100 then
    let idx := ⌊randD g.rng.tail * 3⌋
    if idx = 0 then
      let positions := getSpikePositions g
      let y := positions.getD
        (⌊randD g.rng.tail.tail * (positions.length : ℚ)⌋).toNat (g.gameHeight - 80)
      let base := g.gameWidth + g.cameraX
      if randD g.rng.tail.tail.tail < 7/10 then
        { g with rng := g.rng.tail.tail.tail.tail,
                 obstacles := g.obstacles ++ [mkSpike base y] }
      else if randD g.rng.tail.tail.tail < 17/20 then
        { g with rng := g.rng.tail.tail.tail.tail,
                 obstacles := g.obstacles ++
                   [mkSpike base y, mkSpike (base + 50) y] }
      else
        { g with rng := g.rng.tail.tail.tail.tail,
                 obstacles := g.obstacles ++
                   [mkSpike base y, mkSpike (base + 50) y, mkSpike (base + 100) y] }
    else if idx = 1 then
      let h := [(120 : ℚ), 150, 180].getD (⌊randD g.rng.tail.tail * 3⌋).toNat 120
      { g with rng := g.rng.tail.tail.tail,
               obstacles := g.obstacles ++
                 [{ x := g.gameWidth + g.cameraX, y := g.gameHeight - h, width := 40,
                    height := 60, type := ObstacleType.block, color := "#ffaa00" }] }
    else if idx = 2 then
      let w : ℚ := if randD g.rng.tail.tail < 1/2 then 80 else 120
      let h := [(150 : ℚ), 200, 250].getD (⌊randD g.rng.tail.tail.tail * 3⌋).toNat 150
      { g with rng := g.rng.tail.tail.tail.tail,
               platforms := g.platforms ++
                 [{ x := g.gameWidth + g.cameraX, y := g.gameHeight - h, width := w,
                    height := 20, color := "#00aaff" }] }
    else { g with rng := g.rng.tail.tail }
  else { g with rng := g.rng.tail }

/-! ### Scrolling and culling -/

/-- The obstacle loop of updateObstacles (source lines 395-404): scroll each
obstacle left by speed, drop it when its right edge has passed behind the
camera, counting the drops (each drop scores 10). -/
def scrollCullObstacles (speed camX : ℚ) : List Obstacle → List Obstacle × ℕ
  | [] => ([], 0)
  | o :: os =>
    let o1 := { o with x := o.x - speed }
    let rest := scrollCullObstacles speed camX os
    if o1.x + o1.width < camX then (rest.1, rest.2 + 1) else (o1 :: rest.1, rest.2)

/-- The platform loop of updateObstacles (source lines 407-415): same scroll
and cull, with no scoring. -/
def scrollCullPlatforms (speed camX : ℚ) : List Platform → List Platform
  | [] => []
  | p :: ps =>
    let p1 := { p with x := p.x - speed }
    let rest := scrollCullPlatforms speed camX ps
    if p1.x + p1.width < camX then rest else p1 :: rest

/-- updateObstacles (source lines 393-416). -/
def updateObstacles (g : Game) : Game :=
  let r := scrollCullObstacles g.gameSpeed g.cameraX g.obstacles
  { g with obstacles := r.1,
           platforms := scrollCullPlatforms g.gameSpeed g.cameraX g.platforms,
           score := g.score + 10 * (r.2 : ℚ) }

/-- The loop body of updateParticles (source lines 418-429). -/
def decayParticles : List Particle → List Particle
  | [] => []
  | p :: ps =>
    let p1 := { p with x := p.x + p.vx, y := p.y + p.vy, life := p.life - p.decay }
    if p1.life ≤ 0 then decayParticles ps else p1 :: decayParticles ps

/-- updateParticles (source lines 418-429). -/
def updateParticles (g : Game) : Game :=
  { g with particles := decayParticles g.particles }

/-! ### Collision engine -/

/-- The triangle that checkSpikeCollision builds from a spike, in screen
coordinates (source lines 491-501): bottom-left, top-centre, bottom-right. -/
def spikeTriangle (g : Game) (o : Obstacle) : Pt × Pt × Pt :=
  let sx := o.x - g.cameraX
  (⟨sx, o.y + o.height⟩, ⟨sx + o.width / 2, o.y⟩, ⟨sx + o.width, o.y + o.height⟩)

/-- checkSpikeCollision (source lines 489-548): player corner in triangle,
triangle vertex in player rectangle, or triangle edge crossing player edge. -/
def checkSpikeCollision (g : Game) (o : Obstacle) : Bool :=
  let t := spikeTriangle g o
  let p := g.player
  let c1 : Pt := ⟨p.x, p.y⟩
  let c2 : Pt := ⟨p.x + p.width, p.y⟩
  let c3 : Pt := ⟨p.x, p.y + p.height⟩
  let c4 : Pt := ⟨p.x + p.width, p.y + p.height⟩
  ([c1, c2, c3, c4].any (fun c => pointInTriangle c t.1 t.2.1 t.2.2)) ||
  ([t.1, t.2.1, t.2.2].any (fun q => decide (
      q.x ≥ p.x ∧ q.x ≤ p.x + p.width ∧ q.y ≥ p.y ∧ q.y ≤ p.y + p.height))) ||
  ([(t.1, t.2.1), (t.2.1, t.2.2), (t.2.2, t.1)].any (fun te =>
    [(c1, c2), (c2, c4), (c4, c3), (c3, c1)].any (fun pe =>
      linesIntersect te.1 te.2 pe.1 pe.2)))

/-- The landing condition of the block branch of checkCollisions
(source lines 445-449): horizontal overlap of the screen rectangles, player
bottom edge within [block top, block bottom + 5], falling or resting. -/
def blockLandCond (g : Game) (o : Obstacle) : Prop :=
  g.player.x < o.x - g.cameraX + o.width ∧
  g.player.x + g.player.width > o.x - g.cameraX ∧
  g.player.y + g.player.height ≥ o.y ∧
  g.player.y + g.player.height ≤ o.y + o.height + 5 ∧
  g.player.velocityY ≥ 0

instance (g : Game) (o : Obstacle) : Decidable (blockLandCond g o) := by
  unfold blockLandCond
  infer_instance

/-- The rectangle-overlap condition of the lethal branch of the block case
(source lines 459-462). -/
def blockRectOverlap (g : Game) (o : Obstacle) : Prop :=
  g.player.x < o.x - g.cameraX + o.width ∧
  g.player.x + g.player.width > o.x - g.cameraX ∧
  g.player.y < o.y + o.height ∧
  g.player.y + g.player.height > o.y

instance (g : Game) (o : Obstacle) : Decidable (blockRectOverlap g o) := by
  unfold blockRectOverlap
  infer_instance

/-- The landing resolution of the block case (source lines 452-456): snap the
player bottom to the block top, zero the vertical velocity, emit particles. -/
def landOnBlock (g : Game) (o : Obstacle) : Game :=
  let g1 := { g with player :=
    { g.player with y := o.y - g.player.height, velocityY := 0 } }
  addParticles g1 (g1.player.x + g1.player.width / 2)
    (g1.player.y + g1.player.height) "#ffaa00"

/-- Outcome of the block branch of checkCollisions for one block. -/
inductive BlockRes where
  | landed (g : Game)
  | lethal
  | skip
  deriving Repr

/-- The block branch of checkCollisions (source lines 440-466): the landing
check is the first branch, the lethal rectangle-overlap check only runs when
the landing check fails. -/
def blockCollide (g : Game) (o : Obstacle) : BlockRes :=
  if blockLandCond g o then BlockRes.landed (landOnBlock g o)
  else if blockRectOverlap g o then BlockRes.lethal
  else BlockRes.skip

/-- gameOver (source lines 669-678): only the phase transition is
simulation state; the DOM and music effects are out of scope. -/
def gameOver (g : Game) : Game :=
  { g with gameState := Phase.gameOver }

/-- The obstacle loop of checkCollisions (source lines 433-467); the Bool
records the early return on a lethal contact. -/
def collideObstacles : Game → List Obstacle → Game × Bool
  | g, [] => (g, false)
  | g, o :: os =>
    if o.type = ObstacleType.spike then
      if checkSpikeCollision g o then (gameOver g, true)
      else collideObstacles g os
    else
      match blockCollide g o with
      | BlockRes.landed g1 => collideObstacles g1 os
      | BlockRes.lethal => (gameOver g, true)
      | BlockRes.skip => collideObstacles g os

/-- The landing condition of the platform loop (source lines 473-477). -/
def platformLandCond (g : Game) (p : Platform) : Prop :=
  g.player.x < p.x - g.cameraX + p.width ∧
  g.player.x + g.player.width > p.x - g.cameraX ∧
  g.player.y + g.player.height ≥ p.y ∧
  g.player.y + g.player.height ≤ p.y + p.height + 5 ∧
  g.player.velocityY ≥ 0

instance (g : Game) (p : Platform) : Decidable (platformLandCond g p) := by
  unfold platformLandCond
  infer_instance

/-- The landing resolution of the platform loop (source lines 480-484). -/
def landOnPlatform (g : Game) (p : Platform) : Game :=
  let g1 := { g with player :=
    { g.player with y := p.y - g.player.height, velocityY := 0 } }
  addParticles g1 (g1.player.x + g1.player.width / 2)
    (g1.player.y + g1.player.height) "#00aaff"

/-- The platform loop of checkCollisions (source lines 470-486): landing
only, no lethal case, no early return. -/
def collidePlatforms : Game → List Platform → Game
  | g, [] => g
  | g, p :: ps =>
    if platformLandCond g p then collidePlatforms (landOnPlatform g p) ps
    else collidePlatforms g ps

/-- checkCollisions (source lines 431-487): the obstacle loop (with early
return on a lethal contact), then the platform loop. -/
def checkCollisions (g : Game) : Game :=
  let r := collideObstacles g g.obstacles
  if r.2 then r.1 else collidePlatforms r.1 r.1.platforms

/-! ### Autoplay controller, camera, state machine -/

/-- The jump-and-stamp step of autoJump: this.jump() followed by
this.lastAutoJumpTime = currentTime. -/
def autoDoJump (g : Game) (now : ℚ) : Game :=
  { jump g with lastAutoJumpTime := now }

/-- autoJump (source lines 572-659), with Date.now() passed in as now.  The
Bool reports whether a jump was issued this call.  The source loops return on
the first matching obstacle; since every match triggers the same action,
first-match is rendered with List.any. -/
def autoJump (g : Game) (now : ℚ) : Game × Bool :=
  if g.player.isGrounded = false then (g, false)
  else if now - g.lastAutoJumpTime < g.autoJumpCooldown then (g, false)
  else if g.obstacles.any (fun o => decide (o.type = ObstacleType.spike ∧
      0 < o.x - g.cameraX - g.player.x ∧ o.x - g.cameraX - g.player.x < 40)) then
    (autoDoJump g now, true)
  else if g.player.y ≥ g.gameHeight - 100 ∧ g.obstacles.any (fun o => decide (
      o.type = ObstacleType.block ∧
      0 < o.x - g.cameraX - g.player.x ∧ o.x - g.cameraX - g.player.x < 40 ∧
      o.y < g.player.y + g.player.height - 40)) then
    (autoDoJump g now, true)
  else if g.player.y ≥ g.gameHeight - 100 ∧ ¬ (g.obstacles.any (fun o => decide (
      0 < o.x - g.cameraX - g.player.x ∧ o.x - g.cameraX - g.player.x < 30))) then
    (autoDoJump g now, true)
  else (g, false)

/-- updateCamera (source lines 661-667): advance the camera by the current
speed, recompute the derived distance, bump the speed by 0.001. -/
def updateCamera (g : Game) : Game :=
  { g with cameraX := g.cameraX + g.gameSpeed,
           distance := ⌊(g.cameraX + g.gameSpeed) / 10⌋,
           gameSpeed := g.gameSpeed + 1/1000 }

/-- The unconditional step sequence of update (source lines 917-922):
updatePlayer, generateObstacles, updateObstacles, updateParticles,
checkCollisions, updateCamera. -/
def tickCore (g : Game) : Game :=
  updateCamera (checkCollisions (updateParticles
    (updateObstacles (generateObstacles (updatePlayer g)))))

/-- update (source lines 911-930), with Date.now() and the KeyA hold state
passed in.  The returned Bool reports whether autoJump issued a jump (false
when autoplay did not run).  Note that updateCamera runs unconditionally
after checkCollisions, even on a tick on which checkCollisions transitioned
the phase to gameOver. -/
def update (g : Game) (now : ℚ) (keyA : Bool) : Game × Bool :=
  if g.gameState ≠ Phase.playing then (g, false)
  else
    let g2 := tickCore { g with autoMode := keyA }
    if g2.autoMode then autoJump g2 now else (g2, false)

/-- The simulation state set up by the constructor (source lines 16-47):
gameWidth/gameHeight are the canvas dimensions fixed by
setupResponsiveCanvas.  At construction the initial resize runs before the
player record exists and while gameState is still undefined, so the
constructor leaves player.y at its literal 0. -/
def initialGame (gw gh : ℚ) : Game :=
  { gameState := Phase.menu, score := 0, distance := 0, gameSpeed := 5,
    gravity := 4/5, jumpForce := -15,
    player := { x := 100, y := 0, width := 40, height := 40, velocityY := 0,
                isGrounded := false, rotation := 0, color := "#00ff88" },
    obstacles := [], platforms := [], particles := [], cameraX := 0,
    autoMode := false, lastAutoJumpTime := 0, autoJumpCooldown := 800,
    gameWidth := gw, gameHeight := gh, rng := [] }

/-- startGame (source lines 152-164): only the phase transition is
simulation state (audio startup and the loop launch are out of scope).
startGame does not touch the player pose. -/
def startGame (g : Game) : Game :=
  { g with gameState := Phase.playing }

/-- restartGame (source lines 680-701): reset counters, speed and camera,
reposition the player, clear the entity lists, then start. -/
def restartGame (g : Game) : Game :=
  let p := { g.player with
    x := (100 : ℚ), y := g.gameHeight - 100, velocityY := 0,
    isGrounded := false, rotation := 0 }
  startGame
    { g with score := 0, distance := 0, gameSpeed := 5, cameraX := 0,
             player := p,
             obstacles := [], platforms := [], particles := [] }

/-- A run of ticks: feeds update with a list of (Date.now(), KeyA) inputs
and collects the timestamps of the ticks on which autoJump issued a jump. -/
def autoRunTimes : Game → List (ℚ × Bool) → List ℚ
  | _, [] => []
  | g, i :: rest =>
    let r := update g i.1 i.2
    if r.2 then i.1 :: autoRunTimes r.1 rest else autoRunTimes r.1 rest

/-! ### A frame relation for the collision engine -/

/-- The state components that the collision engine never writes. -/
structure Frame (a b : Game) : Prop where
  cameraX_eq : a.cameraX = b.cameraX
  gameSpeed_eq : a.gameSpeed = b.gameSpeed
  distance_eq : a.distance = b.distance
  score_eq : a.score = b.score
  obstacles_eq : a.obstacles = b.obstacles
  platforms_eq : a.platforms = b.platforms
  lastAutoJumpTime_eq : a.lastAutoJumpTime = b.lastAutoJumpTime
  autoJumpCooldown_eq : a.autoJumpCooldown = b.autoJumpCooldown
  autoMode_eq : a.autoMode = b.autoMode
  gameWidth_eq : a.gameWidth = b.gameWidth
  gameHeight_eq : a.gameHeight = b.gameHeight
  gravity_eq : a.gravity = b.gravity
  player_x_eq : a.player.x = b.player.x
  player_width_eq : a.player.width = b.player.width
  player_height_eq : a.player.height = b.player.height

/-! ### Concrete states used to exercise the definitions -/

/-- A playing state: the player rests on the ground of an 800x600 viewport
with a spike directly at its feet. -/
def demoPlayer : Player :=
  { x := 100, y := 510, width := 40, height := 40, velocityY := 0,
    isGrounded := true, rotation := 0, color := "#00ff88" }

def demoState : Game :=
  { gameState := Phase.playing, score := 0, distance := 0, gameSpeed := 5,
    gravity := 4/5, jumpForce := -15, player := demoPlayer,
    obstacles := [mkSpike 100 520], platforms := [], particles := [],
    cameraX := 0, autoMode := false, lastAutoJumpTime := 0,
    autoJumpCooldown := 800, gameWidth := 800, gameHeight := 600, rng := [] }

/-- A playing state whose randomness stream forces the spawn of a double
spike pattern on the next tick. -/
def c9state : Game := { demoState with obstacles := [], rng := [1/100, 1/6, 0, 3/4] }

/-- An airborne variant of demoState. -/
def airborneState : Game :=
  { demoState with player := { demoPlayer with y := 300, isGrounded := false } }

/-- A block the falling player of c1State is about to land on. -/
def c1Block : Obstacle :=
  { x := 120, y := 490, width := 40, height := 60,
    type := ObstacleType.block, color := "#ffaa00" }

def c1State : Game :=
  let p := { demoPlayer with y := (452 : ℚ), velocityY := (2 : ℚ) }
  { demoState with player := p, obstacles := [c1Block] }

/-- A fresh session that has entered Playing, and a crashed state derived
from it by playing (abstractly) and reaching game over. -/
def c3fresh : Game := startGame (initialGame 800 600)

def c3crashed : Game :=
  let p := { demoPlayer with y := (510 : ℚ), velocityY := (3 : ℚ), rotation := (7 : ℚ) }
  { c3fresh with gameState := Phase.gameOver, score := 120, distance := 42,
                 gameSpeed := 51/10, cameraX := 420,
                 obstacles := [mkSpike 500 520], player := p }

/-! ### Frame lemmas: which state fields each step leaves untouched -/

theorem addParticlesAux_shape (x y : ℚ) (c : String) :
    ∀ (n : ℕ) (g : Game), ∃ ps rs,
      addParticlesAux x y c n g = { g with particles := ps, rng := rs } := by
  intro n
  induction n with
  | zero => exact fun g => ⟨g.particles, g.rng, rfl⟩
  | succ n ih =>
    intro g
    rw [addParticlesAux]
    exact ih _

theorem addParticles_shape (g : Game) (x y : ℚ) (c : String) : ∃ ps rs,
    addParticles g x y c = { g with particles := ps, rng := rs } :=
  addParticlesAux_shape x y c 8 g

@[simp] theorem addParticles_player (g : Game) (x y : ℚ) (c : String) :
    (addParticles g x y c).player = g.player := by
  obtain ⟨ps, rs, h⟩ := addParticles_shape g x y c
  rw [h]

@[simp] theorem addParticles_cameraX (g : Game) (x y : ℚ) (c : String) :
    (addParticles g x y c).cameraX = g.cameraX := by
  obtain ⟨ps, rs, h⟩ := addParticles_shape g x y c
  rw [h]

@[simp] theorem addParticles_gameSpeed (g : Game) (x y : ℚ) (c : String) :
    (addParticles g x y c).gameSpeed = g.gameSpeed := by
  obtain ⟨ps, rs, h⟩ := addParticles_shape g x y c
  rw [h]

@[simp] theorem addParticles_gameState (g : Game) (x y : ℚ) (c : String) :
    (addParticles g x y c).gameState = g.gameState := by
  obtain ⟨ps, rs, h⟩ := addParticles_shape g x y c
  rw [h]

@[simp] theorem addParticles_distance (g : Game) (x y : ℚ) (c : String) :
    (addParticles g x y c).distance = g.distance := by
  obtain ⟨ps, rs, h⟩ := addParticles_shape g x y c
  rw [h]

@[simp] theorem addParticles_score (g : Game) (x y : ℚ) (c : String) :
    (addParticles g x y c).score = g.score := by
  obtain ⟨ps, rs, h⟩ := addParticles_shape g x y c
  rw [h]

@[simp] theorem addParticles_obstacles (g : Game) (x y : ℚ) (c : String) :
    (addParticles g x y c).obstacles = g.obstacles := by
  obtain ⟨ps, rs, h⟩ := addParticles_shape g x y c
  rw [h]

@[simp] theorem addParticles_platforms (g : Game) (x y : ℚ) (c : String) :
    (addParticles g x y c).platforms = g.platforms := by
  obtain ⟨ps, rs, h⟩ := addParticles_shape g x y c
  rw [h]

@[simp] theorem addParticles_lastAutoJumpTime (g : Game) (x y : ℚ) (c : String) :
    (addParticles g x y c).lastAutoJumpTime = g.lastAutoJumpTime := by
  obtain ⟨ps, rs, h⟩ := addParticles_shape g x y c
  rw [h]

@[simp] theorem addParticles_autoJumpCooldown (g : Game) (x y : ℚ) (c : String) :
    (addParticles g x y c).autoJumpCooldown = g.autoJumpCooldown := by
  obtain ⟨ps, rs, h⟩ := addParticles_shape g x y c
  rw [h]

@[simp] theorem addParticles_gameWidth (g : Game) (x y : ℚ) (c : String) :
    (addParticles g x y c).gameWidth = g.gameWidth := by
  obtain ⟨ps, rs, h⟩ := addParticles_shape g x y c
  rw [h]

@[simp] theorem addParticles_gameHeight (g : Game) (x y : ℚ) (c : String) :
    (addParticles g x y c).gameHeight = g.gameHeight := by
  obtain ⟨ps, rs, h⟩ := addParticles_shape g x y c
  rw [h]

@[simp] theorem addParticles_autoMode (g : Game) (x y : ℚ) (c : String) :
    (addParticles g x y c).autoMode = g.autoMode := by
  obtain ⟨ps, rs, h⟩ := addParticles_shape g x y c
  rw [h]

@[simp] theorem addParticles_gravity (g : Game) (x y : ℚ) (c : String) :
    (addParticles g x y c).gravity = g.gravity := by
  obtain ⟨ps, rs, h⟩ := addParticles_shape g x y c
  rw [h]

theorem jump_shape (g : Game) : ∃ p ps rs,
    jump g = { g with player := p, particles := ps, rng := rs } ∧
    p.x = g.player.x ∧ p.y = g.player.y ∧ p.width = g.player.width ∧
    p.height = g.player.height ∧ p.rotation = g.player.rotation := by
  unfold jump
  split
  case isTrue h =>
    obtain ⟨ps, rs, hap⟩ := addParticles_shape
      { g with player := { g.player with velocityY := g.jumpForce, isGrounded := false } }
      (g.player.x + g.player.width / 2) (g.player.y + g.player.height) "#00ff88"
    exact ⟨_, ps, rs, hap, rfl, rfl, rfl, rfl, rfl⟩
  case isFalse h =>
    exact ⟨g.player, g.particles, g.rng, rfl, rfl, rfl, rfl, rfl, rfl⟩

@[simp] theorem jump_player_x (g : Game) : (jump g).player.x = g.player.x := by
  obtain ⟨p, ps, rs, h, hx, hy, hw, hh, hr⟩ := jump_shape g
  rw [h]
  exact hx

@[simp] theorem jump_player_y (g : Game) : (jump g).player.y = g.player.y := by
  obtain ⟨p, ps, rs, h, hx, hy, hw, hh, hr⟩ := jump_shape g
  rw [h]
  exact hy

@[simp] theorem jump_player_height (g : Game) : (jump g).player.height = g.player.height := by
  obtain ⟨p, ps, rs, h, hx, hy, hw, hh, hr⟩ := jump_shape g
  rw [h]
  exact hh

@[simp] theorem jump_cameraX (g : Game) : (jump g).cameraX = g.cameraX := by
  obtain ⟨p, ps, rs, h, _, _, _, _, _⟩ := jump_shape g
  rw [h]

@[simp] theorem jump_gameSpeed (g : Game) : (jump g).gameSpeed = g.gameSpeed := by
  obtain ⟨p, ps, rs, h, _, _, _, _, _⟩ := jump_shape g
  rw [h]

@[simp] theorem jump_distance (g : Game) : (jump g).distance = g.distance := by
  obtain ⟨p, ps, rs, h, _, _, _, _, _⟩ := jump_shape g
  rw [h]

@[simp] theorem jump_lastAutoJumpTime (g : Game) :
    (jump g).lastAutoJumpTime = g.lastAutoJumpTime := by
  obtain ⟨p, ps, rs, h, _, _, _, _, _⟩ := jump_shape g
  rw [h]

@[simp] theorem jump_autoJumpCooldown (g : Game) :
    (jump g).autoJumpCooldown = g.autoJumpCooldown := by
  obtain ⟨p, ps, rs, h, _, _, _, _, _⟩ := jump_shape g
  rw [h]

@[simp] theorem jump_gameHeight (g : Game) : (jump g).gameHeight = g.gameHeight := by
  obtain ⟨p, ps, rs, h, _, _, _, _, _⟩ := jump_shape g
  rw [h]

@[simp] theorem jump_gameState (g : Game) : (jump g).gameState = g.gameState := by
  obtain ⟨p, ps, rs, h, _, _, _, _, _⟩ := jump_shape g
  rw [h]

theorem updatePlayer_shape (g : Game) : ∃ p,
    updatePlayer g = { g with player := p } ∧
    p.x = g.player.x ∧ p.width = g.player.width ∧ p.height = g.player.height := by
  unfold updatePlayer
  dsimp only
  split <;> exact ⟨_, rfl, rfl, rfl, rfl⟩

@[simp] theorem updatePlayer_cameraX (g : Game) : (updatePlayer g).cameraX = g.cameraX := by
  obtain ⟨p, h, _, _, _⟩ := updatePlayer_shape g
  rw [h]

@[simp] theorem updatePlayer_gameSpeed (g : Game) :
    (updatePlayer g).gameSpeed = g.gameSpeed := by
  obtain ⟨p, h, _, _, _⟩ := updatePlayer_shape g
  rw [h]

@[simp] theorem updatePlayer_gameState (g : Game) :
    (updatePlayer g).gameState = g.gameState := by
  obtain ⟨p, h, _, _, _⟩ := updatePlayer_shape g
  rw [h]

@[simp] theorem updatePlayer_obstacles (g : Game) :
    (updatePlayer g).obstacles = g.obstacles := by
  obtain ⟨p, h, _, _, _⟩ := updatePlayer_shape g
  rw [h]

@[simp] theorem updatePlayer_platforms (g : Game) :
    (updatePlayer g).platforms = g.platforms := by
  obtain ⟨p, h, _, _, _⟩ := updatePlayer_shape g
  rw [h]

@[simp] theorem updatePlayer_lastAutoJumpTime (g : Game) :
    (updatePlayer g).lastAutoJumpTime = g.lastAutoJumpTime := by
  obtain ⟨p, h, _, _, _⟩ := updatePlayer_shape g
  rw [h]

@[simp] theorem updatePlayer_autoJumpCooldown (g : Game) :
    (updatePlayer g).autoJumpCooldown = g.autoJumpCooldown := by
  obtain ⟨p, h, _, _, _⟩ := updatePlayer_shape g
  rw [h]

@[simp] theorem updatePlayer_gameWidth (g : Game) :
    (updatePlayer g).gameWidth = g.gameWidth := by
  obtain ⟨p, h, _, _, _⟩ := updatePlayer_shape g
  rw [h]

@[simp] theorem updatePlayer_gameHeight (g : Game) :
    (updatePlayer g).gameHeight = g.gameHeight := by
  obtain ⟨p, h, _, _, _⟩ := updatePlayer_shape g
  rw [h]

@[simp] theorem updatePlayer_autoMode (g : Game) :
    (updatePlayer g).autoMode = g.autoMode := by
  obtain ⟨p, h, _, _, _⟩ := updatePlayer_shape g
  rw [h]

@[simp] theorem updatePlayer_score (g : Game) : (updatePlayer g).score = g.score := by
  obtain ⟨p, h, _, _, _⟩ := updatePlayer_shape g
  rw [h]

@[simp] theorem updatePlayer_player_height (g : Game) :
    (updatePlayer g).player.height = g.player.height := by
  obtain ⟨p, h, _, _, hh⟩ := updatePlayer_shape g
  rw [h]
  exact hh

/-- After updatePlayer the player bottom edge is never below the ground line. -/
theorem updatePlayer_bottom_le (g : Game) :
    (updatePlayer g).player.y + (updatePlayer g).player.height ≤ g.gameHeight - 50 := by
  unfold updatePlayer
  dsimp only
  split
  case isTrue h => dsimp only; linarith
  case isFalse h => dsimp only; linarith

/-- The ground clamp of updatePlayer: when the integrated bottom edge would
pass below the ground line, y is clamped so the bottom rests exactly on the
ground and the vertical velocity is zeroed. -/
theorem updatePlayer_clamp (g : Game)
    (h : g.player.y + (g.player.velocityY + g.gravity) + g.player.height >
      g.gameHeight - 50) :
    (updatePlayer g).player.y + (updatePlayer g).player.height = g.gameHeight - 50 ∧
    (updatePlayer g).player.velocityY = 0 := by
  unfold updatePlayer
  dsimp only
  rw [if_pos (by linarith)]
  constructor
  · dsimp only
    ring
  · rfl

theorem getD_three (a b c d : ℚ) (i : ℕ) :
    [a, b, c].getD i d = a ∨ [a, b, c].getD i d = b ∨
    [a, b, c].getD i d = c ∨ [a, b, c].getD i d = d := by
  match i with
  | 0 => exact Or.inl rfl
  | 1 => exact Or.inr (Or.inl rfl)
  | 2 => exact Or.inr (Or.inr (Or.inl rfl))
  | n + 3 => exact Or.inr (Or.inr (Or.inr rfl))

theorem spikeMem1 {b y : ℚ} {o : Obstacle} (ho : o ∈ [mkSpike b y]) :
    o.type = ObstacleType.spike ∧ o.width = 40 ∧ o.height = 40 ∧
    (o.x = b ∨ o.x = b + 50 ∨ o.x = b + 100) := by
  simp only [List.mem_singleton] at ho
  subst ho
  exact ⟨rfl, rfl, rfl, Or.inl rfl⟩

theorem spikeMem2 {b y : ℚ} {o : Obstacle}
    (ho : o ∈ [mkSpike b y, mkSpike (b + 50) y]) :
    o.type = ObstacleType.spike ∧ o.width = 40 ∧ o.height = 40 ∧
    (o.x = b ∨ o.x = b + 50 ∨ o.x = b + 100) := by
  simp only [List.mem_cons, List.not_mem_nil, or_false] at ho
  rcases ho with ho | ho <;> subst ho
  · exact ⟨rfl, rfl, rfl, Or.inl rfl⟩
  · exact ⟨rfl, rfl, rfl, Or.inr (Or.inl rfl)⟩

theorem spikeMem3 {b y : ℚ} {o : Obstacle}
    (ho : o ∈ [mkSpike b y, mkSpike (b + 50) y, mkSpike (b + 100) y]) :
    o.type = ObstacleType.spike ∧ o.width = 40 ∧ o.height = 40 ∧
    (o.x = b ∨ o.x = b + 50 ∨ o.x = b + 100) := by
  simp only [List.mem_cons, List.not_mem_nil, or_false] at ho
  rcases ho with ho | ho | ho <;> subst ho
  · exact ⟨rfl, rfl, rfl, Or.inl rfl⟩
  · exact ⟨rfl, rfl, rfl, Or.inr (Or.inl rfl)⟩
  · exact ⟨rfl, rfl, rfl, Or.inr (Or.inr rfl)⟩

theorem blockMem {b gh : ℚ} {i : ℕ} {o : Obstacle}
    (ho : o ∈ [{ x := b, y := gh - [(120 : ℚ), 150, 180].getD i 120, width := 40,
                 height := 60, type := ObstacleType.block, color := "#ffaa00" }]) :
    o.type = ObstacleType.block ∧ o.width = 40 ∧ o.height = 60 ∧ o.x = b ∧
    (o.y = gh - 120 ∨ o.y = gh - 150 ∨ o.y = gh - 180) := by
  simp only [List.mem_singleton] at ho
  subst ho
  refine ⟨rfl, rfl, rfl, rfl, ?_⟩
  rcases getD_three 120 150 180 120 i with hg | hg | hg | hg <;> rw [hg]
  · exact Or.inl rfl
  · exact Or.inr (Or.inl rfl)
  · exact Or.inr (Or.inr rfl)
  · exact Or.inl rfl

theorem platMem {b gh w : ℚ} {i : ℕ} {p : Platform}
    (hp : p ∈ [{ x := b, y := gh - [(150 : ℚ), 200, 250].getD i 150, width := w,
                 height := 20, color := "#00aaff" }]) :
    p.x = b ∧ p.height = 20 ∧
    (p.y = gh - 150 ∨ p.y = gh - 200 ∨ p.y = gh - 250) := by
  simp only [List.mem_singleton] at hp
  subst hp
  refine ⟨rfl, rfl, ?_⟩
  rcases getD_three 150 200 250 150 i with hg | hg | hg | hg <;> rw [hg]
  · exact Or.inl rfl
  · exact Or.inr (Or.inl rfl)
  · exact Or.inr (Or.inr rfl)
  · exact Or.inl rfl

/-- generateObstacles only appends fresh obstacles; every appended obstacle
is a 40x40 spike at the spawn x (or 50/100 further right, for the trailing
spikes of a double/triple pattern) or a 40x60 block at the spawn x at one of
the three fixed elevations. -/
theorem generateObstacles_obstacles (g : Game) : ∃ no,
    (generateObstacles g).obstacles = g.obstacles ++ no ∧
    ∀ o ∈ no,
      (o.type = ObstacleType.spike ∧ o.width = 40 ∧ o.height = 40 ∧
        (o.x = g.gameWidth + g.cameraX ∨ o.x = g.gameWidth + g.cameraX + 50 ∨
         o.x = g.gameWidth + g.cameraX + 100)) ∨
      (o.type = ObstacleType.block ∧ o.width = 40 ∧ o.height = 60 ∧
        o.x = g.gameWidth + g.cameraX ∧
        (o.y = g.gameHeight - 120 ∨ o.y = g.gameHeight - 150 ∨
         o.y = g.gameHeight - 180)) := by
  simp only [generateObstacles]
  split
  case isFalse h => exact ⟨[], by simp, by simp⟩
  case isTrue h =>
    split
    case isTrue h0 =>
      split
      case isTrue h1 => exact ⟨_, rfl, fun o ho => Or.inl (spikeMem1 ho)⟩
      case isFalse h1 =>
        split
        case isTrue h2 => exact ⟨_, rfl, fun o ho => Or.inl (spikeMem2 ho)⟩
        case isFalse h2 => exact ⟨_, rfl, fun o ho => Or.inl (spikeMem3 ho)⟩
    case isFalse h0 =>
      split
      case isTrue h1 => exact ⟨_, rfl, fun o ho => Or.inr (blockMem ho)⟩
      case isFalse h1 =>
        split
        case isTrue h2 => exact ⟨[], by simp, by simp⟩
        case isFalse h2 => exact ⟨[], by simp, by simp⟩

/-- generateObstacles only appends fresh platforms; every appended platform
is a 20-thick slab at the spawn x at one of the three fixed elevations. -/
theorem generateObstacles_platforms (g : Game) : ∃ np,
    (generateObstacles g).platforms = g.platforms ++ np ∧
    ∀ p ∈ np, p.x = g.gameWidth + g.cameraX ∧ p.height = 20 ∧
      (p.y = g.gameHeight - 150 ∨ p.y = g.gameHeight - 200 ∨
       p.y = g.gameHeight - 250) := by
  simp only [generateObstacles]
  split
  case isFalse h => exact ⟨[], by simp, by simp⟩
  case isTrue h =>
    split
    case isTrue h0 =>
      split
      case isTrue h1 => exact ⟨[], by simp, by simp⟩
      case isFalse h1 =>
        split
        case isTrue h2 => exact ⟨[], by simp, by simp⟩
        case isFalse h2 => exact ⟨[], by simp, by simp⟩
    case isFalse h0 =>
      split
      case isTrue h1 => exact ⟨[], by simp, by simp⟩
      case isFalse h1 =>
        split
        case isTrue h2 => exact ⟨_, rfl, fun p hp => platMem hp⟩
        case isFalse h2 => exact ⟨[], by simp, by simp⟩

theorem getSingleton_x (o : Obstacle) (b : ℚ) (hx : o.x = b) :
    ∀ (i : ℕ) (h : i < [o].length), ([o].get ⟨i, h⟩).x = b + 50 * (i : ℚ)
  | 0, _ => by simpa using hx
  | n + 1, h => absurd h (by simp)

theorem spikeIdx2 {b y : ℚ} :
    ∀ (i : ℕ) (h : i < [mkSpike b y, mkSpike (b + 50) y].length),
      ([mkSpike b y, mkSpike (b + 50) y].get ⟨i, h⟩).x = b + 50 * (i : ℚ)
  | 0, _ => by simp [mkSpike]
  | 1, _ => by simp [mkSpike]
  | n + 2, h => absurd h (by simp)

theorem spikeIdx3 {b y : ℚ} :
    ∀ (i : ℕ)
      (h : i < [mkSpike b y, mkSpike (b + 50) y, mkSpike (b + 100) y].length),
      ([mkSpike b y, mkSpike (b + 50) y, mkSpike (b + 100) y].get ⟨i, h⟩).x =
        b + 50 * (i : ℚ)
  | 0, _ => by simp [mkSpike]
  | 1, _ => by simp [mkSpike]
  | 2, _ => by norm_num [mkSpike]
  | n + 3, h => absurd h (by simp)

/-- The positional structure of a spawn: the i-th freshly appended obstacle
is created at world x = spawn x + 50 * i, so the leading entity of every
pattern sits exactly at the spawn x and the trailing spikes of a
double/triple pattern sit 50 and 100 units further right. -/
theorem generateObstacles_obstacles_idx (g : Game) : ∃ no,
    (generateObstacles g).obstacles = g.obstacles ++ no ∧
    ∀ (i : ℕ) (h : i < no.length),
      (no.get ⟨i, h⟩).x = g.gameWidth + g.cameraX + 50 * (i : ℚ) := by
  simp only [generateObstacles]
  split
  case isFalse h => exact ⟨[], by simp, fun i h => absurd h (Nat.not_lt_zero i)⟩
  case isTrue h =>
    split
    case isTrue h0 =>
      split
      case isTrue h1 => exact ⟨_, rfl, getSingleton_x _ _ rfl⟩
      case isFalse h1 =>
        split
        case isTrue h2 => exact ⟨_, rfl, spikeIdx2⟩
        case isFalse h2 => exact ⟨_, rfl, spikeIdx3⟩
    case isFalse h0 =>
      split
      case isTrue h1 => exact ⟨_, rfl, getSingleton_x _ _ rfl⟩
      case isFalse h1 =>
        split
        case isTrue h2 =>
          exact ⟨[], by simp, fun i h => absurd h (Nat.not_lt_zero i)⟩
        case isFalse h2 =>
          exact ⟨[], by simp, fun i h => absurd h (Nat.not_lt_zero i)⟩

@[simp] theorem generateObstacles_player (g : Game) :
    (generateObstacles g).player = g.player := by
  simp only [generateObstacles]
  repeat' split
  all_goals rfl

@[simp] theorem generateObstacles_cameraX (g : Game) :
    (generateObstacles g).cameraX = g.cameraX := by
  simp only [generateObstacles]
  repeat' split
  all_goals rfl

@[simp] theorem generateObstacles_gameSpeed (g : Game) :
    (generateObstacles g).gameSpeed = g.gameSpeed := by
  simp only [generateObstacles]
  repeat' split
  all_goals rfl

@[simp] theorem generateObstacles_gameState (g : Game) :
    (generateObstacles g).gameState = g.gameState := by
  simp only [generateObstacles]
  repeat' split
  all_goals rfl

@[simp] theorem generateObstacles_score (g : Game) :
    (generateObstacles g).score = g.score := by
  simp only [generateObstacles]
  repeat' split
  all_goals rfl

@[simp] theorem generateObstacles_distance (g : Game) :
    (generateObstacles g).distance = g.distance := by
  simp only [generateObstacles]
  repeat' split
  all_goals rfl

@[simp] theorem generateObstacles_lastAutoJumpTime (g : Game) :
    (generateObstacles g).lastAutoJumpTime = g.lastAutoJumpTime := by
  simp only [generateObstacles]
  repeat' split
  all_goals rfl

@[simp] theorem generateObstacles_autoJumpCooldown (g : Game) :
    (generateObstacles g).autoJumpCooldown = g.autoJumpCooldown := by
  simp only [generateObstacles]
  repeat' split
  all_goals rfl

@[simp] theorem generateObstacles_gameWidth (g : Game) :
    (generateObstacles g).gameWidth = g.gameWidth := by
  simp only [generateObstacles]
  repeat' split
  all_goals rfl

@[simp] theorem generateObstacles_gameHeight (g : Game) :
    (generateObstacles g).gameHeight = g.gameHeight := by
  simp only [generateObstacles]
  repeat' split
  all_goals rfl

@[simp] theorem generateObstacles_autoMode (g : Game) :
    (generateObstacles g).autoMode = g.autoMode := by
  simp only [generateObstacles]
  repeat' split
  all_goals rfl

@[simp] theorem generateObstacles_gravity (g : Game) :
    (generateObstacles g).gravity = g.gravity := by
  simp only [generateObstacles]
  repeat' split
  all_goals rfl

/-! ### Scroll-and-cull lemmas -/

/-- The obstacle pass of updateObstacles, in closed form: the survivors are
the scrolled obstacles whose right edge is not behind the camera, and the
removal count is the number of scrolled obstacles whose right edge is. -/
theorem scrollCullObstacles_eq (speed camX : ℚ) (l : List Obstacle) :
    scrollCullObstacles speed camX l =
      ((l.map (fun o => { o with x := o.x - speed })).filter
        (fun o => !decide (o.x + o.width < camX)),
       l.countP (fun o => decide (o.x - speed + o.width < camX))) := by
  induction l with
  | nil => rfl
  | cons o os ih =>
    simp only [scrollCullObstacles, ih, List.map_cons, List.filter_cons,
      List.countP_cons]
    by_cases h : o.x - speed + o.width < camX
    · rw [if_pos h]
      simp [h]
    · rw [if_neg h]
      simp [h]

/-- The platform pass of updateObstacles, in closed form. -/
theorem scrollCullPlatforms_eq (speed camX : ℚ) (l : List Platform) :
    scrollCullPlatforms speed camX l =
      (l.map (fun p => { p with x := p.x - speed })).filter
        (fun p => !decide (p.x + p.width < camX)) := by
  induction l with
  | nil => rfl
  | cons p ps ih =>
    simp only [scrollCullPlatforms, ih, List.map_cons, List.filter_cons]
    by_cases h : p.x - speed + p.width < camX
    · rw [if_pos h]
      simp [h]
    · rw [if_neg h]
      simp [h]

@[simp] theorem updateObstacles_player (g : Game) :
    (updateObstacles g).player = g.player := rfl

@[simp] theorem updateObstacles_cameraX (g : Game) :
    (updateObstacles g).cameraX = g.cameraX := rfl

@[simp] theorem updateObstacles_gameSpeed (g : Game) :
    (updateObstacles g).gameSpeed = g.gameSpeed := rfl

@[simp] theorem updateObstacles_gameState (g : Game) :
    (updateObstacles g).gameState = g.gameState := rfl

@[simp] theorem updateObstacles_distance (g : Game) :
    (updateObstacles g).distance = g.distance := rfl

@[simp] theorem updateObstacles_lastAutoJumpTime (g : Game) :
    (updateObstacles g).lastAutoJumpTime = g.lastAutoJumpTime := rfl

@[simp] theorem updateObstacles_autoJumpCooldown (g : Game) :
    (updateObstacles g).autoJumpCooldown = g.autoJumpCooldown := rfl

@[simp] theorem updateObstacles_gameWidth (g : Game) :
    (updateObstacles g).gameWidth = g.gameWidth := rfl

@[simp] theorem updateObstacles_gameHeight (g : Game) :
    (updateObstacles g).gameHeight = g.gameHeight := rfl

@[simp] theorem updateObstacles_autoMode (g : Game) :
    (updateObstacles g).autoMode = g.autoMode := rfl

@[simp] theorem updateObstacles_gravity (g : Game) :
    (updateObstacles g).gravity = g.gravity := rfl

theorem updateObstacles_obstacles (g : Game) :
    (updateObstacles g).obstacles =
      (g.obstacles.map (fun o => { o with x := o.x - g.gameSpeed })).filter
        (fun o => !decide (o.x + o.width < g.cameraX)) := by
  unfold updateObstacles
  rw [scrollCullObstacles_eq]

theorem updateObstacles_platforms (g : Game) :
    (updateObstacles g).platforms =
      (g.platforms.map (fun p => { p with x := p.x - g.gameSpeed })).filter
        (fun p => !decide (p.x + p.width < g.cameraX)) := by
  unfold updateObstacles
  rw [scrollCullPlatforms_eq]

theorem updateObstacles_score (g : Game) :
    (updateObstacles g).score = g.score +
      10 * (g.obstacles.countP
        (fun o => decide (o.x - g.gameSpeed + o.width < g.cameraX)) : ℚ) := by
  unfold updateObstacles
  rw [scrollCullObstacles_eq]

@[simp] theorem updateParticles_player (g : Game) :
    (updateParticles g).player = g.player := rfl

@[simp] theorem updateParticles_cameraX (g : Game) :
    (updateParticles g).cameraX = g.cameraX := rfl

@[simp] theorem updateParticles_gameSpeed (g : Game) :
    (updateParticles g).gameSpeed = g.gameSpeed := rfl

@[simp] theorem updateParticles_gameState (g : Game) :
    (updateParticles g).gameState = g.gameState := rfl

@[simp] theorem updateParticles_distance (g : Game) :
    (updateParticles g).distance = g.distance := rfl

@[simp] theorem updateParticles_score (g : Game) :
    (updateParticles g).score = g.score := rfl

@[simp] theorem updateParticles_obstacles (g : Game) :
    (updateParticles g).obstacles = g.obstacles := rfl

@[simp] theorem updateParticles_platforms (g : Game) :
    (updateParticles g).platforms = g.platforms := rfl

@[simp] theorem updateParticles_lastAutoJumpTime (g : Game) :
    (updateParticles g).lastAutoJumpTime = g.lastAutoJumpTime := rfl

@[simp] theorem updateParticles_autoJumpCooldown (g : Game) :
    (updateParticles g).autoJumpCooldown = g.autoJumpCooldown := rfl

@[simp] theorem updateParticles_gameWidth (g : Game) :
    (updateParticles g).gameWidth = g.gameWidth := rfl

@[simp] theorem updateParticles_gameHeight (g : Game) :
    (updateParticles g).gameHeight = g.gameHeight := rfl

@[simp] theorem updateParticles_autoMode (g : Game) :
    (updateParticles g).autoMode = g.autoMode := rfl

@[simp] theorem updateParticles_gravity (g : Game) :
    (updateParticles g).gravity = g.gravity := rfl

@[simp] theorem updateCamera_player (g : Game) :
    (updateCamera g).player = g.player := rfl

@[simp] theorem updateCamera_cameraX (g : Game) :
    (updateCamera g).cameraX = g.cameraX + g.gameSpeed := rfl

@[simp] theorem updateCamera_gameSpeed (g : Game) :
    (updateCamera g).gameSpeed = g.gameSpeed + 1/1000 := rfl

@[simp] theorem updateCamera_distance (g : Game) :
    (updateCamera g).distance = ⌊(g.cameraX + g.gameSpeed) / 10⌋ := rfl

@[simp] theorem updateCamera_gameState (g : Game) :
    (updateCamera g).gameState = g.gameState := rfl

@[simp] theorem updateCamera_lastAutoJumpTime (g : Game) :
    (updateCamera g).lastAutoJumpTime = g.lastAutoJumpTime := rfl

@[simp] theorem updateCamera_autoJumpCooldown (g : Game) :
    (updateCamera g).autoJumpCooldown = g.autoJumpCooldown := rfl

@[simp] theorem updateCamera_gameWidth (g : Game) :
    (updateCamera g).gameWidth = g.gameWidth := rfl

@[simp] theorem updateCamera_gameHeight (g : Game) :
    (updateCamera g).gameHeight = g.gameHeight := rfl

@[simp] theorem updateCamera_autoMode (g : Game) :
    (updateCamera g).autoMode = g.autoMode := rfl

@[simp] theorem updateCamera_score (g : Game) :
    (updateCamera g).score = g.score := rfl

@[simp] theorem gameOver_player (g : Game) : (gameOver g).player = g.player := rfl

@[simp] theorem gameOver_cameraX (g : Game) : (gameOver g).cameraX = g.cameraX := rfl

@[simp] theorem gameOver_gameSpeed (g : Game) :
    (gameOver g).gameSpeed = g.gameSpeed := rfl

@[simp] theorem gameOver_gameState (g : Game) :
    (gameOver g).gameState = Phase.gameOver := rfl

/-! ### A frame relation for the collision engine -/

theorem Frame.refl (a : Game) : Frame a a :=
  ⟨rfl, rfl, rfl, rfl, rfl, rfl, rfl, rfl, rfl, rfl, rfl, rfl, rfl, rfl, rfl⟩

theorem Frame.trans {a b c : Game} (h1 : Frame a b) (h2 : Frame b c) : Frame a c :=
  ⟨h1.cameraX_eq.trans h2.cameraX_eq, h1.gameSpeed_eq.trans h2.gameSpeed_eq,
   h1.distance_eq.trans h2.distance_eq, h1.score_eq.trans h2.score_eq,
   h1.obstacles_eq.trans h2.obstacles_eq, h1.platforms_eq.trans h2.platforms_eq,
   h1.lastAutoJumpTime_eq.trans h2.lastAutoJumpTime_eq,
   h1.autoJumpCooldown_eq.trans h2.autoJumpCooldown_eq,
   h1.autoMode_eq.trans h2.autoMode_eq, h1.gameWidth_eq.trans h2.gameWidth_eq,
   h1.gameHeight_eq.trans h2.gameHeight_eq, h1.gravity_eq.trans h2.gravity_eq,
   h1.player_x_eq.trans h2.player_x_eq,
   h1.player_width_eq.trans h2.player_width_eq,
   h1.player_height_eq.trans h2.player_height_eq⟩

theorem frame_addParticles (g : Game) (x y : ℚ) (c : String) :
    Frame (addParticles g x y c) g := by
  obtain ⟨ps, rs, h⟩ := addParticles_shape g x y c
  rw [h]
  exact ⟨rfl, rfl, rfl, rfl, rfl, rfl, rfl, rfl, rfl, rfl, rfl, rfl, rfl, rfl, rfl⟩

theorem frame_gameOver (g : Game) : Frame (gameOver g) g := ⟨rfl, rfl, rfl, rfl, rfl, rfl, rfl, rfl, rfl, rfl, rfl, rfl, rfl, rfl, rfl⟩

theorem frame_landOnBlock (g : Game) (o : Obstacle) :
    Frame (landOnBlock g o) g := by
  unfold landOnBlock
  exact Frame.trans (frame_addParticles _ _ _ _) ⟨rfl, rfl, rfl, rfl, rfl, rfl, rfl, rfl, rfl, rfl, rfl, rfl, rfl, rfl, rfl⟩

theorem frame_landOnPlatform (g : Game) (p : Platform) :
    Frame (landOnPlatform g p) g := by
  unfold landOnPlatform
  exact Frame.trans (frame_addParticles _ _ _ _) ⟨rfl, rfl, rfl, rfl, rfl, rfl, rfl, rfl, rfl, rfl, rfl, rfl, rfl, rfl, rfl⟩

theorem frame_collideObstacles (l : List Obstacle) :
    ∀ g : Game, Frame (collideObstacles g l).1 g := by
  induction l with
  | nil => exact fun g => Frame.refl g
  | cons o os ih =>
    intro g
    rw [collideObstacles]
    split
    · split
      · exact frame_gameOver g
      · exact ih g
    · rcases hbc : blockCollide g o with g1 | _ | _
      · refine Frame.trans (ih g1) ?_
        unfold blockCollide at hbc
        split at hbc
        · cases hbc
          exact frame_landOnBlock g o
        · split at hbc
          · cases hbc
          · cases hbc
      · exact frame_gameOver g
      · exact ih g

theorem frame_collidePlatforms (l : List Platform) :
    ∀ g : Game, Frame (collidePlatforms g l) g := by
  induction l with
  | nil => exact fun g => Frame.refl g
  | cons p ps ih =>
    intro g
    rw [collidePlatforms]
    split
    · exact Frame.trans (ih _) (frame_landOnPlatform g p)
    · exact ih g

theorem frame_checkCollisions (g : Game) : Frame (checkCollisions g) g := by
  simp only [checkCollisions]
  split
  · exact frame_collideObstacles _ g
  · exact Frame.trans (frame_collidePlatforms _ _) (frame_collideObstacles _ g)

@[simp] theorem checkCollisions_cameraX (g : Game) :
    (checkCollisions g).cameraX = g.cameraX := (frame_checkCollisions g).cameraX_eq

@[simp] theorem checkCollisions_gameSpeed (g : Game) :
    (checkCollisions g).gameSpeed = g.gameSpeed := (frame_checkCollisions g).gameSpeed_eq

@[simp] theorem checkCollisions_distance (g : Game) :
    (checkCollisions g).distance = g.distance := (frame_checkCollisions g).distance_eq

@[simp] theorem checkCollisions_score (g : Game) :
    (checkCollisions g).score = g.score := (frame_checkCollisions g).score_eq

@[simp] theorem checkCollisions_lastAutoJumpTime (g : Game) :
    (checkCollisions g).lastAutoJumpTime = g.lastAutoJumpTime :=
  (frame_checkCollisions g).lastAutoJumpTime_eq

@[simp] theorem checkCollisions_autoJumpCooldown (g : Game) :
    (checkCollisions g).autoJumpCooldown = g.autoJumpCooldown :=
  (frame_checkCollisions g).autoJumpCooldown_eq

@[simp] theorem checkCollisions_autoMode (g : Game) :
    (checkCollisions g).autoMode = g.autoMode := (frame_checkCollisions g).autoMode_eq

@[simp] theorem checkCollisions_gameWidth (g : Game) :
    (checkCollisions g).gameWidth = g.gameWidth := (frame_checkCollisions g).gameWidth_eq

@[simp] theorem checkCollisions_gameHeight (g : Game) :
    (checkCollisions g).gameHeight = g.gameHeight :=
  (frame_checkCollisions g).gameHeight_eq

@[simp] theorem checkCollisions_gravity (g : Game) :
    (checkCollisions g).gravity = g.gravity := (frame_checkCollisions g).gravity_eq

@[simp] theorem checkCollisions_player_height (g : Game) :
    (checkCollisions g).player.height = g.player.height :=
  (frame_checkCollisions g).player_height_eq

/-! ### Player bottom edge bounds through the collision engine -/

theorem landOnBlock_bottom (g : Game) (o : Obstacle) :
    (landOnBlock g o).player.y + (landOnBlock g o).player.height = o.y := by
  unfold landOnBlock
  simp only [addParticles_player]
  ring

theorem landOnPlatform_bottom (g : Game) (p : Platform) :
    (landOnPlatform g p).player.y + (landOnPlatform g p).player.height = p.y := by
  unfold landOnPlatform
  simp only [addParticles_player]
  ring

theorem collideObstacles_bottom {B : ℚ} (l : List Obstacle) : ∀ g : Game,
    g.player.y + g.player.height ≤ B →
    (∀ o ∈ l, o.type = ObstacleType.block → o.y ≤ B) →
    (collideObstacles g l).1.player.y + (collideObstacles g l).1.player.height ≤ B := by
  induction l with
  | nil => exact fun g hb _ => hb
  | cons o os ih =>
    intro g hb hl
    rw [collideObstacles]
    split
    case isTrue hsp =>
      split
      · simpa using hb
      · exact ih g hb fun o1 ho1 => hl o1 (List.mem_cons_of_mem _ ho1)
    case isFalse hsp =>
      have hty : o.type = ObstacleType.block := by
        rcases h2 : o.type
        · exact absurd h2 hsp
        · rfl
      rcases hbc : blockCollide g o with g1 | _ | _
      · have hb1 : g1.player.y + g1.player.height ≤ B := by
          unfold blockCollide at hbc
          split at hbc
          · cases hbc
            rw [landOnBlock_bottom]
            exact hl o (List.mem_cons_self o os) hty
          · split at hbc
            · cases hbc
            · cases hbc
        exact ih g1 hb1 fun o1 ho1 => hl o1 (List.mem_cons_of_mem _ ho1)
      · simpa using hb
      · exact ih g hb fun o1 ho1 => hl o1 (List.mem_cons_of_mem _ ho1)

theorem collidePlatforms_bottom {B : ℚ} (l : List Platform) : ∀ g : Game,
    g.player.y + g.player.height ≤ B →
    (∀ p ∈ l, p.y ≤ B) →
    (collidePlatforms g l).player.y + (collidePlatforms g l).player.height ≤ B := by
  induction l with
  | nil => exact fun g hb _ => hb
  | cons p ps ih =>
    intro g hb hl
    rw [collidePlatforms]
    split
    · refine ih _ ?_ fun p1 hp1 => hl p1 (List.mem_cons_of_mem _ hp1)
      rw [landOnPlatform_bottom]
      exact hl p (List.mem_cons_self p ps)
    · exact ih g hb fun p1 hp1 => hl p1 (List.mem_cons_of_mem _ hp1)

theorem checkCollisions_bottom {B : ℚ} (g : Game)
    (hb : g.player.y + g.player.height ≤ B)
    (hobs : ∀ o ∈ g.obstacles, o.type = ObstacleType.block → o.y ≤ B)
    (hplats : ∀ p ∈ g.platforms, p.y ≤ B) :
    (checkCollisions g).player.y + (checkCollisions g).player.height ≤ B := by
  simp only [checkCollisions]
  split
  · exact collideObstacles_bottom _ g hb hobs
  · refine collidePlatforms_bottom _ _
      (collideObstacles_bottom _ g hb hobs) ?_
    rw [(frame_collideObstacles g.obstacles g).platforms_eq]
    exact hplats

/-! ### Membership through scroll-and-cull -/

theorem updateObstacles_mem {g : Game} {o : Obstacle}
    (ho : o ∈ (updateObstacles g).obstacles) :
    ∃ o0 ∈ g.obstacles, o.y = o0.y ∧ o.type = o0.type ∧
      o.width = o0.width ∧ o.height = o0.height := by
  rw [updateObstacles_obstacles] at ho
  have ho1 := (List.mem_filter.1 ho).1
  obtain ⟨o0, ho0, he⟩ := List.mem_map.1 ho1
  exact ⟨o0, ho0, by rw [← he], by rw [← he], by rw [← he], by rw [← he]⟩

theorem updateObstacles_mem_plat {g : Game} {p : Platform}
    (hp : p ∈ (updateObstacles g).platforms) :
    ∃ p0 ∈ g.platforms, p.y = p0.y ∧ p.width = p0.width ∧ p.height = p0.height := by
  rw [updateObstacles_platforms] at hp
  have hp1 := (List.mem_filter.1 hp).1
  obtain ⟨p0, hp0, he⟩ := List.mem_map.1 hp1
  exact ⟨p0, hp0, by rw [← he], by rw [← he], by rw [← he]⟩

/-! ### tickCore projections -/

theorem tickCore_cameraX (g : Game) :
    (tickCore g).cameraX = g.cameraX + g.gameSpeed := by
  simp [tickCore]

theorem tickCore_gameSpeed (g : Game) :
    (tickCore g).gameSpeed = g.gameSpeed + 1/1000 := by
  simp [tickCore]

theorem tickCore_distance (g : Game) :
    (tickCore g).distance = ⌊(g.cameraX + g.gameSpeed) / 10⌋ := by
  simp [tickCore]

theorem tickCore_lastAutoJumpTime (g : Game) :
    (tickCore g).lastAutoJumpTime = g.lastAutoJumpTime := by
  simp [tickCore]

theorem tickCore_autoJumpCooldown (g : Game) :
    (tickCore g).autoJumpCooldown = g.autoJumpCooldown := by
  simp [tickCore]

theorem tickCore_autoMode (g : Game) : (tickCore g).autoMode = g.autoMode := by
  simp [tickCore]

theorem tickCore_gameHeight (g : Game) : (tickCore g).gameHeight = g.gameHeight := by
  simp [tickCore]

theorem tickCore_player_height (g : Game) :
    (tickCore g).player.height = g.player.height := by
  simp [tickCore]

/-! ### Autoplay controller lemmas -/

/-- autoJump either does nothing, or (when grounded, past the cooldown, and
some trigger fires) jumps and stamps the time. -/
theorem autoJump_spec (g : Game) (now : ℚ) :
    autoJump g now = (g, false) ∨
    (autoJump g now = (autoDoJump g now, true) ∧
      g.player.isGrounded = true ∧
      g.lastAutoJumpTime + g.autoJumpCooldown ≤ now) := by
  unfold autoJump
  split
  · exact Or.inl rfl
  case isFalse h1 =>
    split
    case isTrue h2 => exact Or.inl rfl
    case isFalse h2 =>
      have hg : g.player.isGrounded = true := by
        cases hgb : g.player.isGrounded
        · exact absurd hgb h1
        · rfl
      have hcd : g.lastAutoJumpTime + g.autoJumpCooldown ≤ now := by
        push_neg at h2
        linarith
      split
      · exact Or.inr ⟨rfl, hg, hcd⟩
      split
      · exact Or.inr ⟨rfl, hg, hcd⟩
      split
      · exact Or.inr ⟨rfl, hg, hcd⟩
      · exact Or.inl rfl

theorem autoJump_not_grounded (g : Game) (now : ℚ)
    (h : g.player.isGrounded = false) : autoJump g now = (g, false) := by
  unfold autoJump
  rw [if_pos h]

theorem autoJump_in_cooldown (g : Game) (now : ℚ)
    (h : now - g.lastAutoJumpTime < g.autoJumpCooldown) :
    autoJump g now = (g, false) := by
  unfold autoJump
  by_cases h1 : g.player.isGrounded = false
  · rw [if_pos h1]
  · rw [if_neg h1, if_pos h]

@[simp] theorem autoDoJump_lastAutoJumpTime (g : Game) (now : ℚ) :
    (autoDoJump g now).lastAutoJumpTime = now := rfl

@[simp] theorem autoDoJump_autoJumpCooldown (g : Game) (now : ℚ) :
    (autoDoJump g now).autoJumpCooldown = g.autoJumpCooldown := by
  unfold autoDoJump
  simp

@[simp] theorem autoDoJump_cameraX (g : Game) (now : ℚ) :
    (autoDoJump g now).cameraX = g.cameraX := by
  unfold autoDoJump
  simp

@[simp] theorem autoDoJump_gameSpeed (g : Game) (now : ℚ) :
    (autoDoJump g now).gameSpeed = g.gameSpeed := by
  unfold autoDoJump
  simp

@[simp] theorem autoDoJump_distance (g : Game) (now : ℚ) :
    (autoDoJump g now).distance = g.distance := by
  unfold autoDoJump
  simp

@[simp] theorem autoDoJump_player_y (g : Game) (now : ℚ) :
    (autoDoJump g now).player.y = g.player.y := by
  unfold autoDoJump
  simp

@[simp] theorem autoDoJump_player_height (g : Game) (now : ℚ) :
    (autoDoJump g now).player.height = g.player.height := by
  unfold autoDoJump
  simp

theorem autoJump_cameraX (g : Game) (now : ℚ) :
    (autoJump g now).1.cameraX = g.cameraX := by
  rcases autoJump_spec g now with h | ⟨h, -, -⟩ <;> simp [h]

theorem autoJump_gameSpeed (g : Game) (now : ℚ) :
    (autoJump g now).1.gameSpeed = g.gameSpeed := by
  rcases autoJump_spec g now with h | ⟨h, -, -⟩ <;> simp [h]

theorem autoJump_distance (g : Game) (now : ℚ) :
    (autoJump g now).1.distance = g.distance := by
  rcases autoJump_spec g now with h | ⟨h, -, -⟩ <;> simp [h]

theorem autoJump_cooldown_eq (g : Game) (now : ℚ) :
    (autoJump g now).1.autoJumpCooldown = g.autoJumpCooldown := by
  rcases autoJump_spec g now with h | ⟨h, -, -⟩ <;> simp [h]

theorem autoJump_player_y (g : Game) (now : ℚ) :
    (autoJump g now).1.player.y = g.player.y := by
  rcases autoJump_spec g now with h | ⟨h, -, -⟩ <;> simp [h]

theorem autoJump_player_height (g : Game) (now : ℚ) :
    (autoJump g now).1.player.height = g.player.height := by
  rcases autoJump_spec g now with h | ⟨h, -, -⟩ <;> simp [h]

/-! ### update decomposition -/

theorem update_not_playing (g : Game) (now : ℚ) (keyA : Bool)
    (h : g.gameState ≠ Phase.playing) : update g now keyA = (g, false) := by
  rw [update, if_pos h]

theorem update_eq_playing (g : Game) (now : ℚ) (keyA : Bool)
    (h : g.gameState = Phase.playing) :
    update g now keyA =
      if (tickCore { g with autoMode := keyA }).autoMode = true then
        autoJump (tickCore { g with autoMode := keyA }) now
      else (tickCore { g with autoMode := keyA }, false) := by
  rw [update, if_neg (by simp [h])]

theorem update_cameraX (g : Game) (now : ℚ) (keyA : Bool)
    (h : g.gameState = Phase.playing) :
    (update g now keyA).1.cameraX = g.cameraX + g.gameSpeed := by
  rw [update_eq_playing g now keyA h]
  split
  · rw [autoJump_cameraX, tickCore_cameraX]
  · rw [tickCore_cameraX]

theorem update_gameSpeed (g : Game) (now : ℚ) (keyA : Bool)
    (h : g.gameState = Phase.playing) :
    (update g now keyA).1.gameSpeed = g.gameSpeed + 1/1000 := by
  rw [update_eq_playing g now keyA h]
  split
  · rw [autoJump_gameSpeed, tickCore_gameSpeed]
  · rw [tickCore_gameSpeed]

theorem update_distance (g : Game) (now : ℚ) (keyA : Bool)
    (h : g.gameState = Phase.playing) :
    (update g now keyA).1.distance = ⌊(g.cameraX + g.gameSpeed) / 10⌋ := by
  rw [update_eq_playing g now keyA h]
  split
  · rw [autoJump_distance, tickCore_distance]
  · rw [tickCore_distance]

theorem update_cooldown_eq (g : Game) (now : ℚ) (keyA : Bool) :
    (update g now keyA).1.autoJumpCooldown = g.autoJumpCooldown := by
  by_cases h : g.gameState = Phase.playing
  · rw [update_eq_playing g now keyA h]
    split
    · rw [autoJump_cooldown_eq, tickCore_autoJumpCooldown]
    · rw [tickCore_autoJumpCooldown]
  · rw [update_not_playing g now keyA h]

theorem update_jumped (g : Game) (now : ℚ) (keyA : Bool)
    (h : (update g now keyA).2 = true) :
    (update g now keyA).1.lastAutoJumpTime = now ∧
    g.lastAutoJumpTime + g.autoJumpCooldown ≤ now := by
  by_cases hp : g.gameState = Phase.playing
  · rw [update_eq_playing g now keyA hp] at h ⊢
    split at h
    next hm =>
      rcases autoJump_spec (tickCore { g with autoMode := keyA }) now with ha | ⟨ha, -, hcd⟩
      · rw [ha] at h
        cases h
      · rw [if_pos hm, ha]
        rw [tickCore_lastAutoJumpTime, tickCore_autoJumpCooldown] at hcd
        exact ⟨rfl, hcd⟩
    next hm => cases h
  · rw [update_not_playing g now keyA hp] at h
    cases h

theorem update_not_jumped (g : Game) (now : ℚ) (keyA : Bool)
    (h : (update g now keyA).2 = false) :
    (update g now keyA).1.lastAutoJumpTime = g.lastAutoJumpTime := by
  by_cases hp : g.gameState = Phase.playing
  · rw [update_eq_playing g now keyA hp] at h ⊢
    split at h
    next hm =>
      rcases autoJump_spec (tickCore { g with autoMode := keyA }) now with ha | ⟨ha, -, -⟩
      · rw [if_pos hm, ha, tickCore_lastAutoJumpTime]
      · rw [ha] at h
        cases h
    next hm =>
      rw [if_neg hm, tickCore_lastAutoJumpTime]
  · rw [update_not_playing g now keyA hp]

/-! ### The per-tick ground invariant and the autoplay run invariant -/

/-- Provided every block and platform in the state has its top at or above
the ground line, the full step sequence of a tick leaves the player bottom
edge at or above the ground line. -/
theorem tickCore_bottom (g : Game)
    (hobs : ∀ o ∈ g.obstacles, o.type = ObstacleType.block →
      o.y ≤ g.gameHeight - 50)
    (hplats : ∀ p ∈ g.platforms, p.y ≤ g.gameHeight - 50) :
    (tickCore g).player.y + (tickCore g).player.height ≤ g.gameHeight - 50 := by
  unfold tickCore
  simp only [updateCamera_player]
  apply checkCollisions_bottom
  · simp only [updateParticles_player, updateObstacles_player,
      generateObstacles_player]
    exact updatePlayer_bottom_le g
  · simp only [updateParticles_obstacles]
    intro o ho hblk
    obtain ⟨o0, ho0, hy, hty, -, -⟩ := updateObstacles_mem ho
    obtain ⟨no, heq, hprops⟩ := generateObstacles_obstacles (updatePlayer g)
    rw [heq, updatePlayer_obstacles] at ho0
    rcases List.mem_append.1 ho0 with hmem | hmem
    · rw [hy]
      exact hobs o0 hmem (by rw [← hty]; exact hblk)
    · rcases hprops o0 hmem with ⟨hsp, -, -, -⟩ | ⟨-, -, -, -, hy0⟩
      · exact absurd ((hty.symm.trans hblk).symm.trans hsp) (by simp)
      · rw [hy]
        have hgh := updatePlayer_gameHeight g
        rcases hy0 with h1 | h1 | h1 <;> rw [h1, hgh] <;> linarith
  · simp only [updateParticles_platforms]
    intro p hp
    obtain ⟨p0, hp0, hy, -, -⟩ := updateObstacles_mem_plat hp
    obtain ⟨np, heq, hprops⟩ := generateObstacles_platforms (updatePlayer g)
    rw [heq, updatePlayer_platforms] at hp0
    rcases List.mem_append.1 hp0 with hmem | hmem
    · rw [hy]
      exact hplats p0 hmem
    · obtain ⟨-, -, hy0⟩ := hprops p0 hmem
      rw [hy]
      have hgh := updatePlayer_gameHeight g
      rcases hy0 with h1 | h1 | h1 <;> rw [h1, hgh] <;> linarith

/-- The jump timestamps collected over a run are chained at least one
cooldown apart, and the first is at least one cooldown after the initial
lastAutoJumpTime. -/
theorem autoRunTimes_chain (inputs : List (ℚ × Bool)) : ∀ g : Game,
    List.Chain' (fun a b => a + g.autoJumpCooldown ≤ b)
      (autoRunTimes g inputs) ∧
    (∀ a, (autoRunTimes g inputs).head? = some a →
      g.lastAutoJumpTime + g.autoJumpCooldown ≤ a) := by
  induction inputs with
  | nil =>
    intro g
    exact ⟨List.chain'_nil, fun a ha => by cases ha⟩
  | cons i rest ih =>
    intro g
    simp only [autoRunTimes]
    by_cases hj : (update g i.1 i.2).2 = true
    · rw [if_pos hj]
      obtain ⟨hlast, hcd⟩ := update_jumped g i.1 i.2 hj
      obtain ⟨ihc, ihh⟩ := ih (update g i.1 i.2).1
      rw [update_cooldown_eq] at ihc ihh
      rw [hlast] at ihh
      constructor
      · rw [List.chain'_cons']
        exact ⟨fun b hb => ihh b hb, ihc⟩
      · intro a ha
        rw [List.head?_cons, Option.some_inj] at ha
        rw [← ha]
        exact hcd
    · have hj2 : (update g i.1 i.2).2 = false := by
        cases h2 : (update g i.1 i.2).2
        · rfl
        · exact absurd h2 hj
      rw [if_neg hj]
      obtain ⟨ihc, ihh⟩ := ih (update g i.1 i.2).1
      rw [update_cooldown_eq] at ihc ihh
      rw [update_not_jumped g i.1 i.2 hj2] at ihh
      exact ⟨ihc, ihh⟩

/-! ### Claim theorems -/

/-- C1: for every Block and every player state satisfying the landing
condition (horizontal overlap of the screen rectangles, player bottom edge in
[block.y, block.y + block.height + 5], vertical velocity ≥ 0), the collision
engine resolves the contact as a landing — the player bottom edge is set to
the block top exactly and the vertical velocity to 0 — and never as a lethal
contact, even if the rectangles also overlap; a Block is lethal exactly when
the rectangles overlap and the landing condition fails. -/
theorem c1_block_landing_precedes_lethal (g : Game) (o : Obstacle) :
    (blockLandCond g o →
      blockCollide g o = BlockRes.landed (landOnBlock g o) ∧
      (landOnBlock g o).player.y + (landOnBlock g o).player.height = o.y ∧
      (landOnBlock g o).player.velocityY = 0) ∧
    (blockCollide g o = BlockRes.lethal ↔
      blockRectOverlap g o ∧ ¬ blockLandCond g o) := by
  constructor
  · intro h
    refine ⟨?_, landOnBlock_bottom g o, ?_⟩
    · unfold blockCollide
      rw [if_pos h]
    · unfold landOnBlock
      simp only [addParticles_player]
  · unfold blockCollide
    by_cases hl : blockLandCond g o
    · rw [if_pos hl]
      constructor
      · intro hc
        cases hc
      · rintro ⟨-, hnl⟩
        exact absurd hl hnl
    · rw [if_neg hl]
      by_cases ho : blockRectOverlap g o
      · rw [if_pos ho]
        exact ⟨fun _ => ⟨ho, hl⟩, fun _ => rfl⟩
      · rw [if_neg ho]
        constructor
        · intro hc
          cases hc
        · rintro ⟨hc, -⟩
          exact absurd hc ho

/-- C1 witness: a concrete falling player landing on a concrete block. -/
theorem c1_witness :
    blockLandCond c1State c1Block ∧
    (blockCollide c1State c1Block = BlockRes.landed (landOnBlock c1State c1Block) ∧
      (landOnBlock c1State c1Block).player.y +
        (landOnBlock c1State c1Block).player.height = c1Block.y ∧
      (landOnBlock c1State c1Block).player.velocityY = 0) :=
  have h : blockLandCond c1State c1Block := by
    norm_num [blockLandCond, c1State, c1Block, demoState, demoPlayer]
  ⟨h, (c1_block_landing_precedes_lethal c1State c1Block).1 h⟩

/-- C2 counterexample: a tick on which the collision engine transitions the
phase to GameOver still advances the camera offset and the speed (the claim
says they stay at their values from the moment of the transition). -/
theorem c2_counterexample :
    demoState.gameState = Phase.playing ∧
    (update demoState 0 false).1.gameState = Phase.gameOver ∧
    demoState.cameraX = 0 ∧
    (update demoState 0 false).1.cameraX = 5 ∧
    demoState.gameSpeed = 5 ∧
    (update demoState 0 false).1.gameSpeed = 5001/1000 := by
  norm_num [update, tickCore, updatePlayer, updateCamera, checkCollisions,
    updateObstacles, updateParticles, generateObstacles, collideObstacles,
    collidePlatforms, checkIfGrounded, checkSpikeCollision, pointInTriangle,
    spikeTriangle, linesIntersect, intersectDenom, intersectUA, intersectUB,
    triDenominator, blockCollide, blockLandCond, blockRectOverlap,
    scrollCullObstacles, scrollCullPlatforms, decayParticles, randD, mkSpike,
    gameOver, getSpikePositions, demoState, demoPlayer]

/-- C2 amended: on every Playing tick — including one on which the collision
engine transitions the phase to GameOver (only the remaining collision checks
of that tick are short-circuited) — the camera offset advances by the current
speed, the derived distance is recomputed, and the speed grows by 1/1000. -/
theorem c2_camera_advances_even_on_gameover (g : Game) (now : ℚ) (keyA : Bool)
    (h : g.gameState = Phase.playing) :
    (update g now keyA).1.cameraX = g.cameraX + g.gameSpeed ∧
    (update g now keyA).1.gameSpeed = g.gameSpeed + 1/1000 ∧
    (update g now keyA).1.distance = ⌊(g.cameraX + g.gameSpeed) / 10⌋ :=
  ⟨update_cameraX g now keyA h, update_gameSpeed g now keyA h,
   update_distance g now keyA h⟩

/-- C2 amended witness: the advancing equations hold on the lethal tick of
the counterexample state. -/
theorem c2_camera_advances_witness :
    demoState.gameState = Phase.playing ∧
    ((update demoState 0 false).1.cameraX = demoState.cameraX + demoState.gameSpeed ∧
     (update demoState 0 false).1.gameSpeed = demoState.gameSpeed + 1/1000 ∧
     (update demoState 0 false).1.distance =
       ⌊(demoState.cameraX + demoState.gameSpeed) / 10⌋) :=
  ⟨rfl, c2_camera_advances_even_on_gameover demoState 0 false rfl⟩

/-- C3: the code diverges from the claim.  restartGame resets score,
distance, speed, camera, the entity lists, and the player pose with
y = gameHeight - 100; but a fresh session entering Playing still has the
constructor literal player.y = 0 (the initial resize of
setupResponsiveCanvas runs before the player record exists and while
gameState is not 'playing', so it never repositions the player, contrary to
the constructor comment).  Hence the restart state and the fresh state agree
on everything the claim lists except the player's y. -/
theorem c3_restart_vs_fresh_divergence :
    (restartGame c3crashed).score = 0 ∧
    (restartGame c3crashed).distance = 0 ∧
    (restartGame c3crashed).gameSpeed = 5 ∧
    (restartGame c3crashed).cameraX = 0 ∧
    (restartGame c3crashed).obstacles = [] ∧
    (restartGame c3crashed).platforms = [] ∧
    (restartGame c3crashed).particles = [] ∧
    (restartGame c3crashed).gameState = Phase.playing ∧
    (restartGame c3crashed).player.x = c3fresh.player.x ∧
    (restartGame c3crashed).player.velocityY = c3fresh.player.velocityY ∧
    (restartGame c3crashed).player.isGrounded = c3fresh.player.isGrounded ∧
    (restartGame c3crashed).player.rotation = c3fresh.player.rotation ∧
    (restartGame c3crashed).player.y = 500 ∧
    c3fresh.player.y = 0 ∧
    (restartGame c3crashed).player.y ≠ c3fresh.player.y := by
  norm_num [restartGame, startGame, initialGame, c3crashed, c3fresh,
    demoPlayer, mkSpike]

/-- C4: while Playing, the ground clamp of updatePlayer snaps the player
bottom exactly onto the ground line and zeroes the vertical velocity whenever
gravity integration would carry it below; and, provided every block and
platform top in the state is at or above the ground line (as all spawned ones
are), no later step of the tick moves the player below the ground line: after
the full tick the bottom edge is at or above it. -/
theorem c4_ground_clamp_invariant (g : Game) (now : ℚ) (keyA : Bool)
    (hplay : g.gameState = Phase.playing)
    (hobs : ∀ o ∈ g.obstacles, o.type = ObstacleType.block →
      o.y ≤ g.gameHeight - 50)
    (hplats : ∀ p ∈ g.platforms, p.y ≤ g.gameHeight - 50) :
    (g.player.y + (g.player.velocityY + g.gravity) + g.player.height >
        g.gameHeight - 50 →
      (updatePlayer g).player.y + (updatePlayer g).player.height =
        g.gameHeight - 50 ∧
      (updatePlayer g).player.velocityY = 0) ∧
    (update g now keyA).1.player.y + (update g now keyA).1.player.height ≤
      g.gameHeight - 50 := by
  refine ⟨updatePlayer_clamp g, ?_⟩
  rw [update_eq_playing g now keyA hplay]
  have hb := tickCore_bottom { g with autoMode := keyA } hobs hplats
  split
  · rw [autoJump_player_y, autoJump_player_height]
    exact hb
  · exact hb

/-- C4 witness: the clamp fires and the invariant holds on a concrete
grounded state. -/
theorem c4_witness :
    demoState.gameState = Phase.playing ∧
    demoState.player.y + (demoState.player.velocityY + demoState.gravity) +
      demoState.player.height > demoState.gameHeight - 50 ∧
    (((updatePlayer demoState).player.y + (updatePlayer demoState).player.height =
        demoState.gameHeight - 50 ∧
      (updatePlayer demoState).player.velocityY = 0) ∧
     (update demoState 0 false).1.player.y +
        (update demoState 0 false).1.player.height ≤ demoState.gameHeight - 50) :=
  have hclamp : demoState.player.y + (demoState.player.velocityY +
      demoState.gravity) + demoState.player.height > demoState.gameHeight - 50 := by
    norm_num [demoState, demoPlayer]
  have hmain := c4_ground_clamp_invariant demoState 0 false rfl
    (by simp [demoState, mkSpike]) (by simp [demoState])
  ⟨rfl, hclamp, ⟨hmain.1 hclamp, hmain.2⟩⟩

/-- C5: one scroll-and-cull pass adds exactly 10 points per removed obstacle
(an obstacle is removed exactly when its scrolled right edge lies behind the
camera offset) and changes the score in no other way; platform removal never
touches the score; surviving obstacles and platforms are exactly the
originals with x decreased by the current speed, in order. -/
theorem c5_scroll_cull_scoring (g : Game) :
    (updateObstacles g).score = g.score +
      10 * (g.obstacles.countP
        (fun o => decide (o.x - g.gameSpeed + o.width < g.cameraX)) : ℚ) ∧
    (updateObstacles g).obstacles =
      (g.obstacles.map (fun o => { o with x := o.x - g.gameSpeed })).filter
        (fun o => !decide (o.x + o.width < g.cameraX)) ∧
    (updateObstacles g).platforms =
      (g.platforms.map (fun p => { p with x := p.x - g.gameSpeed })).filter
        (fun p => !decide (p.x + p.width < g.cameraX)) ∧
    (updateObstacles g).player = g.player ∧
    (updateObstacles g).distance = g.distance ∧
    (updateObstacles g).cameraX = g.cameraX :=
  ⟨updateObstacles_score g, updateObstacles_obstacles g,
   updateObstacles_platforms g, rfl, rfl, rfl⟩

/-- C6: the segment-intersection test returns false whenever the denominator
(determinant) is zero — parallel segments, including collinear-overlapping
ones — and returns true exactly when the denominator is nonzero and both
intersection parameters ua and ub lie in the closed interval [0, 1]. -/
theorem c6_linesIntersect_spec (p1 p2 p3 p4 : Pt) :
    (intersectDenom p1 p2 p3 p4 = 0 → linesIntersect p1 p2 p3 p4 = false) ∧
    (linesIntersect p1 p2 p3 p4 = true ↔
      intersectDenom p1 p2 p3 p4 ≠ 0 ∧
      0 ≤ intersectUA p1 p2 p3 p4 ∧ intersectUA p1 p2 p3 p4 ≤ 1 ∧
      0 ≤ intersectUB p1 p2 p3 p4 ∧ intersectUB p1 p2 p3 p4 ≤ 1) := by
  unfold linesIntersect
  constructor
  · intro h
    rw [if_pos h]
  · split
    case isTrue h => simp [h]
    case isFalse h => simp [h, decide_eq_true_iff, ge_iff_le, and_assoc]

/-- C6 witness: collinear-overlapping horizontal segments have denominator 0
and test as not intersecting. -/
theorem c6_witness :
    intersectDenom ⟨0, 0⟩ ⟨2, 0⟩ ⟨1, 0⟩ ⟨3, 0⟩ = 0 ∧
    linesIntersect ⟨0, 0⟩ ⟨2, 0⟩ ⟨1, 0⟩ ⟨3, 0⟩ = false :=
  have h : intersectDenom ⟨0, 0⟩ ⟨2, 0⟩ ⟨1, 0⟩ ⟨3, 0⟩ = 0 := by
    norm_num [intersectDenom]
  ⟨h, (c6_linesIntersect_spec ⟨0, 0⟩ ⟨2, 0⟩ ⟨1, 0⟩ ⟨3, 0⟩).1 h⟩

/-- C7: the autoplay controller issues no jump while airborne and none while
the cooldown since the last autoplay jump has not elapsed; a jump is only
ever issued while grounded; and over any run of ticks the timestamps of
autoplay-issued jumps are separated by at least one cooldown window. -/
theorem c7_autoplay_discipline :
    (∀ (g : Game) (now : ℚ), g.player.isGrounded = false →
      (autoJump g now).2 = false) ∧
    (∀ (g : Game) (now : ℚ), now - g.lastAutoJumpTime < g.autoJumpCooldown →
      (autoJump g now).2 = false) ∧
    (∀ (g : Game) (now : ℚ), (autoJump g now).2 = true →
      g.player.isGrounded = true) ∧
    (∀ (g : Game) (inputs : List (ℚ × Bool)),
      List.Chain' (fun a b => a + g.autoJumpCooldown ≤ b)
        (autoRunTimes g inputs)) := by
  refine ⟨?_, ?_, ?_, ?_⟩
  · intro g now h
    rw [autoJump_not_grounded g now h]
  · intro g now h
    rw [autoJump_in_cooldown g now h]
  · intro g now h
    rcases autoJump_spec g now with hs | ⟨-, hg, -⟩
    · rw [hs] at h
      cases h
    · exact hg
  · intro g inputs
    exact (autoRunTimes_chain inputs g).1

/-- C7 witness: the three no-jump/grounded facts at concrete states, and the
cooldown chain on a concrete run. -/
theorem c7_witness :
    (autoJump airborneState 0).2 = false ∧
    (autoJump demoState 100).2 = false ∧
    demoState.player.isGrounded = true ∧
    List.Chain' (fun a b => a + demoState.autoJumpCooldown ≤ b)
      (autoRunTimes demoState [(1000, true)]) :=
  ⟨c7_autoplay_discipline.1 airborneState 0 rfl,
   c7_autoplay_discipline.2.1 demoState 100 (by norm_num [demoState]),
   c7_autoplay_discipline.2.2.1 demoState 1000 (by
     norm_num [autoJump, autoDoJump, demoState, demoPlayer, mkSpike]),
   c7_autoplay_discipline.2.2.2 demoState [(1000, true)]⟩

/-- C8: the speed is non-decreasing across any two consecutive ticks (each
tick either leaves the speed unchanged, when not Playing, or increases it by
1/1000). -/
theorem c8_speed_nondecreasing (g : Game) (t1 t2 : ℚ) (k1 k2 : Bool) :
    (update g t1 k1).1.gameSpeed ≤
      (update (update g t1 k1).1 t2 k2).1.gameSpeed := by
  have mono : ∀ (h : Game) (t : ℚ) (k : Bool),
      h.gameSpeed ≤ (update h t k).1.gameSpeed := by
    intro h t k
    by_cases hp : h.gameState = Phase.playing
    · rw [update_gameSpeed h t k hp]
      linarith
    · rw [update_not_playing h t k hp]
  exact mono _ t2 k2

/-- C9 counterexample: a spawn tick that emits a double spike pattern creates
its second spike at world x = camera offset + viewport width + 50, not at
camera offset + viewport width as the claim states for every spawned
entity. -/
theorem c9_counterexample :
    c9state.obstacles = [] ∧
    c9state.gameWidth + c9state.cameraX = 800 ∧
    (generateObstacles c9state).obstacles = [mkSpike 800 520, mkSpike 850 520] ∧
    (mkSpike 850 520).x = 850 ∧
    (850 : ℚ) ≠ 800 := by
  norm_num [generateObstacles, getSpikePositions, randD, c9state, demoState,
    mkSpike]

/-- C9 amended: the i-th freshly spawned obstacle of a spawn is created at
world x = camera offset + viewport width + 50 i — so the leading entity of
every spawn (single spike, first spike of a double/triple pattern, block)
sits exactly at camera offset + viewport width and the trailing spikes of a
double/triple pattern sit 50 and 100 units further right — and every spawned
platform is created exactly at camera offset + viewport width; consequently
every newly spawned entity has screen x ≥ viewport width, so no spawn is
visible at creation. -/
theorem c9_spawn_positions (g : Game) :
    ∃ no np,
      (generateObstacles g).obstacles = g.obstacles ++ no ∧
      (generateObstacles g).platforms = g.platforms ++ np ∧
      (∀ o, no.head? = some o → o.x = g.gameWidth + g.cameraX) ∧
      (∀ (i : ℕ) (h : i < no.length),
        (no.get ⟨i, h⟩).x = g.gameWidth + g.cameraX + 50 * (i : ℚ)) ∧
      (∀ o ∈ no,
        (o.x = g.gameWidth + g.cameraX ∨ o.x = g.gameWidth + g.cameraX + 50 ∨
         o.x = g.gameWidth + g.cameraX + 100) ∧
        o.x - g.cameraX ≥ g.gameWidth) ∧
      (∀ p ∈ np, p.x = g.gameWidth + g.cameraX ∧ p.x - g.cameraX ≥ g.gameWidth) := by
  obtain ⟨no, heo, hidx⟩ := generateObstacles_obstacles_idx g
  obtain ⟨no2, heo2, hpo⟩ := generateObstacles_obstacles g
  have hne : no = no2 := List.append_cancel_left (heo.symm.trans heo2)
  subst hne
  obtain ⟨np, hep, hpp⟩ := generateObstacles_platforms g
  refine ⟨no, np, heo, hep, ?_, hidx, ?_, ?_⟩
  · intro o ho
    rcases no with _ | ⟨a, l⟩
    · exact Option.noConfusion ho
    · have ha : a = o := Option.some_inj.1 ho
      subst ha
      simpa using hidx 0 (by simp)
  · intro o ho
    have hx : o.x = g.gameWidth + g.cameraX ∨ o.x = g.gameWidth + g.cameraX + 50 ∨
        o.x = g.gameWidth + g.cameraX + 100 := by
      rcases hpo o ho with ⟨-, -, -, hx⟩ | ⟨-, -, -, hx, -⟩
      · exact hx
      · exact Or.inl hx
    refine ⟨hx, ?_⟩
    rcases hx with h | h | h <;> rw [h] <;> linarith
  · intro p hp
    obtain ⟨hx, -, -⟩ := hpp p hp
    refine ⟨hx, ?_⟩
    rw [hx]
    linarith

/-- C9 amended witness: the spawn-position property at the double-spike
state. -/
theorem c9_witness :
    ∃ no np,
      (generateObstacles c9state).obstacles = c9state.obstacles ++ no ∧
      (generateObstacles c9state).platforms = c9state.platforms ++ np ∧
      (∀ o, no.head? = some o → o.x = c9state.gameWidth + c9state.cameraX) ∧
      (∀ (i : ℕ) (h : i < no.length),
        (no.get ⟨i, h⟩).x = c9state.gameWidth + c9state.cameraX + 50 * (i : ℚ)) ∧
      (∀ o ∈ no,
        (o.x = c9state.gameWidth + c9state.cameraX ∨
         o.x = c9state.gameWidth + c9state.cameraX + 50 ∨
         o.x = c9state.gameWidth + c9state.cameraX + 100) ∧
        o.x - c9state.cameraX ≥ c9state.gameWidth) ∧
      (∀ p ∈ np, p.x = c9state.gameWidth + c9state.cameraX ∧
        p.x - c9state.cameraX ≥ c9state.gameWidth) :=
  c9_spawn_positions c9state

/-- C10: the barycentric denominator of pointInTriangle is nonzero (in fact
1600) for the triangle the spike-collision check builds from any spike of
width 40 and height 40, and every spike the spawn planner emits has width 40
and height 40 — so the unguarded division-by-zero branch is unreachable for
all spikes the game creates. -/
theorem c10_spike_denominator_nonzero (g : Game) (o : Obstacle) :
    (o.width = 40 → o.height = 40 →
      triDenominator (spikeTriangle g o).1 (spikeTriangle g o).2.1
        (spikeTriangle g o).2.2 = 1600 ∧
      triDenominator (spikeTriangle g o).1 (spikeTriangle g o).2.1
        (spikeTriangle g o).2.2 ≠ 0) ∧
    (∃ no, (generateObstacles g).obstacles = g.obstacles ++ no ∧
      ∀ o1 ∈ no, o1.type = ObstacleType.spike →
        o1.width = 40 ∧ o1.height = 40) := by
  constructor
  · intro hw hh
    have he : triDenominator (spikeTriangle g o).1 (spikeTriangle g o).2.1
        (spikeTriangle g o).2.2 = 1600 := by
      unfold spikeTriangle triDenominator
      rw [hw, hh]
      ring
    exact ⟨he, by rw [he]; norm_num⟩
  · obtain ⟨no, heq, hprops⟩ := generateObstacles_obstacles g
    refine ⟨no, heq, ?_⟩
    intro o1 h1 hsp
    rcases hprops o1 h1 with ⟨-, hw, hh, -⟩ | ⟨hb, -⟩
    · exact ⟨hw, hh⟩
    · exact absurd (hb.symm.trans hsp) (by simp)

/-- C10 witness: the denominator facts at a concrete spawned spike. -/
theorem c10_witness :
    (mkSpike 100 520).width = 40 ∧ (mkSpike 100 520).height = 40 ∧
    (triDenominator (spikeTriangle demoState (mkSpike 100 520)).1
        (spikeTriangle demoState (mkSpike 100 520)).2.1
        (spikeTriangle demoState (mkSpike 100 520)).2.2 = 1600 ∧
      triDenominator (spikeTriangle demoState (mkSpike 100 520)).1
        (spikeTriangle demoState (mkSpike 100 520)).2.1
        (spikeTriangle demoState (mkSpike 100 520)).2.2 ≠ 0) :=
  ⟨rfl, rfl,
   (c10_spike_denominator_nonzero demoState (mkSpike 100 520)).1 rfl rfl⟩

end GeometryDash
